import Mathlib

/-!
# ClusterAxe — verification of the coordination core

Shallow embedding of the ClusterAxe repository (ESP32 Bitcoin-mining cluster
coordination layer) and proofs about it.  Each section embeds one part of the
C source:

* `Partitioner`   — `calculate_nonce_ranges` (src/main/cluster/cluster_master.c)
* `Balancer`      — `cluster_should_distribute_work` (cluster_integration.c)
* `ShareFanIn`    — `is_duplicate_share` / `cluster_master_receive_share`
                    (cluster_master.c)
* `JobMap`        — `cluster_master_store_job_mapping` /
                    `cluster_master_find_job_mapping` (cluster_integration.c)
* `Dispatcher`    — slave side of `cluster_handle_bap_message` (cluster.c) and
                    `cluster_protocol_decode_timing` (cluster_protocol.c)
* `SlaveShare`    — `cluster_slave_on_share_found` (cluster_slave.c) and
                    `cluster_slave_intercept_share` (cluster_integration.c)
* `Pacer`         — `run_calibration_step` / `start_calibration` (auto_timing.c)
* `Codec`         — `cluster_protocol_encode_work` / `decode_work` /
                    `encode_share` / `decode_share` (cluster_protocol.c)
* `Watchdog`      — `get_lower_freq_step` / `get_lower_voltage_step` /
                    `cluster_watchdog_task` (cluster_autotune.c)

Machine integers are modelled as `Nat` (all the relevant C arithmetic stays in
range, which is proved where it matters); C `float` quantities that only feed
comparisons of exactly representable values (reject rates, temperatures,
voltages) are modelled as `ℚ`.
-/

namespace ClusterAxe

-- ============================================================================
-- Partitioner: calculate_nonce_ranges (cluster_master.c, lines 51-89)
-- ============================================================================

namespace Partitioner

/-- `CLUSTER_MAX_SLAVES` (cluster_config.h). -/
def CLUSTER_MAX_SLAVES : Nat := 8

/-- The slave table, reduced to what `calculate_nonce_ranges` reads: for each
slot in id order, whether `slaves[i].state == SLAVE_STATE_ACTIVE`. -/
def activeCount (slaves : List Bool) : Nat := (slaves.filter id).length

/-- The loop of `calculate_nonce_ranges`: walk the slave table in id order,
assigning `(slot * range_size, range_size)` to each active slave and
incrementing `slot` (which starts at 1; the master implicitly keeps slot 0). -/
def assignRanges (slaves : List Bool) (slot rangeSize : Nat) : List (Nat × Nat) :=
  match slaves with
  | [] => []
  | true :: rest => (slot * rangeSize, rangeSize) :: assignRanges rest (slot + 1) rangeSize
  | false :: rest => assignRanges rest slot rangeSize

/-- `calculate_nonce_ranges`: `total_nodes = 1 + active_count`,
`range_size = 0xFFFFFFFF / total_nodes` (C truncating division on `uint32_t`),
then ranges are assigned to the active slaves starting at slot 1. -/
def calculateNonceRanges (slaves : List Bool) : List (Nat × Nat) :=
  let totalNodes := 1 + activeCount slaves
  let rangeSize := 0xFFFFFFFF / totalNodes
  assignRanges slaves 1 rangeSize

/-- The full slot list including the master's implicit slot 0 (range starting
at 0 of the same size, per the source comment "master implicitly gets range
0" and the spec "The Coordinator always occupies slot 0 (start=0)"). -/
def fullRanges (slaves : List Bool) : List (Nat × Nat) :=
  (0, 0xFFFFFFFF / (1 + activeCount slaves)) :: calculateNonceRanges slaves

theorem activeCount_cons_true (rest : List Bool) :
    activeCount (true :: rest) = activeCount rest + 1 := by
  simp [activeCount, List.filter]

theorem activeCount_cons_false (rest : List Bool) :
    activeCount (false :: rest) = activeCount rest := by
  simp [activeCount, List.filter]

theorem assignRanges_eq_map (slaves : List Bool) (slot rangeSize : Nat) :
    assignRanges slaves slot rangeSize =
      (List.range (activeCount slaves)).map (fun j => ((slot + j) * rangeSize, rangeSize)) := by
  induction slaves generalizing slot with
  | nil => simp [assignRanges, activeCount]
  | cons b rest ih =>
    cases b with
    | true =>
      rw [show assignRanges (true :: rest) slot rangeSize =
            (slot * rangeSize, rangeSize) :: assignRanges rest (slot + 1) rangeSize from rfl,
          ih, activeCount_cons_true, List.range_succ_eq_map]
      simp only [List.map_cons, List.map_map]
      refine List.cons_eq_cons.mpr ⟨by simp, ?_⟩
      apply List.map_congr_left
      intro j _
      simp only [Function.comp_apply, Prod.mk.injEq, and_true, Nat.succ_eq_add_one]
      ring
    | false =>
      rw [show assignRanges (false :: rest) slot rangeSize =
            assignRanges rest slot rangeSize from rfl, ih, activeCount_cons_false]

theorem fullRanges_eq_map (slaves : List Bool) :
    fullRanges slaves =
      (List.range (1 + activeCount slaves)).map
        (fun j => (j * (0xFFFFFFFF / (1 + activeCount slaves)),
                   0xFFFFFFFF / (1 + activeCount slaves))) := by
  unfold fullRanges calculateNonceRanges
  rw [assignRanges_eq_map, Nat.add_comm 1 (activeCount slaves), List.range_succ_eq_map]
  simp only [List.map_cons, List.map_map]
  refine List.cons_eq_cons.mpr ⟨by simp, ?_⟩
  apply List.map_congr_left
  intro j _
  simp only [Function.comp_apply, Prod.mk.injEq, and_true, Nat.succ_eq_add_one]
  ring

/-- Intervals `[s₁, s₁+n₁)` and `[s₂, s₂+n₂)` do not overlap. -/
def rangesDisjoint (r₁ r₂ : Nat × Nat) : Prop :=
  r₁.1 + r₁.2 ≤ r₂.1 ∨ r₂.1 + r₂.2 ≤ r₁.1

theorem sum_sizes (slaves : List Bool) :
    ((fullRanges slaves).map Prod.snd).sum =
      (1 + activeCount slaves) * (0xFFFFFFFF / (1 + activeCount slaves)) := by
  rw [fullRanges_eq_map, List.map_map]
  have hconst : (Prod.snd ∘ fun j : Nat =>
        (j * (0xFFFFFFFF / (1 + activeCount slaves)), 0xFFFFFFFF / (1 + activeCount slaves)))
      = fun _ => 0xFFFFFFFF / (1 + activeCount slaves) := rfl
  rw [hconst, List.map_const', List.sum_replicate, List.length_range, smul_eq_mul]

theorem union_prefix (slaves : List Bool) (x : Nat) :
    (∃ p ∈ fullRanges slaves, p.1 ≤ x ∧ x < p.1 + p.2) ↔
      x < (1 + activeCount slaves) * (0xFFFFFFFF / (1 + activeCount slaves)) := by
  set N := 1 + activeCount slaves with hN
  set rs := 0xFFFFFFFF / N with hrs
  rw [fullRanges_eq_map]
  constructor
  · rintro ⟨p, hp, hle, hlt⟩
    rw [List.mem_map] at hp
    obtain ⟨j, hj, rfl⟩ := hp
    rw [List.mem_range] at hj
    have h1 : x < (j + 1) * rs := by
      simpa [Nat.succ_mul] using hlt
    exact lt_of_lt_of_le h1 (Nat.mul_le_mul_right rs hj)
  · intro hx
    rcases Nat.eq_zero_or_pos rs with h0 | hpos
    · rw [h0] at hx
      simp at hx
    · refine ⟨(x / rs * rs, rs), ?_, Nat.div_mul_le_self x rs, ?_⟩
      · rw [List.mem_map]
        refine ⟨x / rs, ?_, rfl⟩
        rw [List.mem_range]
        exact (Nat.div_lt_iff_lt_mul hpos).mpr (by rw [Nat.mul_comm] at hx ⊢; exact hx)
      · have h1 := Nat.div_add_mod x rs
        have h2 := Nat.mod_lt x hpos
        have h3 : x / rs * rs = rs * (x / rs) := Nat.mul_comm _ _
        omega

theorem ranges_pairwise_disjoint (slaves : List Bool) :
    (fullRanges slaves).Pairwise rangesDisjoint := by
  rw [fullRanges_eq_map]
  refine List.Pairwise.map _ ?_ (List.pairwise_lt_range _)
  intro i j hij
  left
  show i * _ + _ ≤ j * _
  calc i * (0xFFFFFFFF / (1 + activeCount slaves)) + 0xFFFFFFFF / (1 + activeCount slaves)
      = (i + 1) * (0xFFFFFFFF / (1 + activeCount slaves)) := by ring
    _ ≤ j * (0xFFFFFFFF / (1 + activeCount slaves)) := Nat.mul_le_mul_right _ hij

/-- **C1 (amended).** After a partition recompute with `N = 1 + active_count`
nodes: the master occupies slot 0 starting at nonce 0; the `j`-th active
worker (ascending id order) gets `start = (1+j) * range_size` and
`size = range_size` where `range_size = ⌊(2³²−1) / N⌋`; all `N` assigned
ranges are pairwise disjoint and their union is exactly the prefix
`[0, N·range_size)` of the 32-bit nonce space; and the sum of the assigned
sizes (workers plus master slot) is `N × ⌊(2³²−1) / N⌋` — not
`N × ⌊2³² / N⌋` as the claim stated. -/
theorem nonce_partition_correct (slaves : List Bool) :
    calculateNonceRanges slaves =
        (List.range (activeCount slaves)).map
          (fun j => ((1 + j) * (0xFFFFFFFF / (1 + activeCount slaves)),
                     0xFFFFFFFF / (1 + activeCount slaves)))
    ∧ fullRanges slaves =
        (0, 0xFFFFFFFF / (1 + activeCount slaves)) :: calculateNonceRanges slaves
    ∧ (fullRanges slaves).Pairwise rangesDisjoint
    ∧ (∀ x, (∃ p ∈ fullRanges slaves, p.1 ≤ x ∧ x < p.1 + p.2) ↔
          x < (1 + activeCount slaves) * (0xFFFFFFFF / (1 + activeCount slaves)))
    ∧ (1 + activeCount slaves) * (0xFFFFFFFF / (1 + activeCount slaves)) < 2 ^ 32
    ∧ ((fullRanges slaves).map Prod.snd).sum =
        (1 + activeCount slaves) * (0xFFFFFFFF / (1 + activeCount slaves)) := by
  refine ⟨?_, rfl, ranges_pairwise_disjoint slaves, union_prefix slaves, ?_, sum_sizes slaves⟩
  · unfold calculateNonceRanges
    rw [assignRanges_eq_map]
  · calc (1 + activeCount slaves) * (0xFFFFFFFF / (1 + activeCount slaves))
        ≤ 0xFFFFFFFF := by
          rw [Nat.mul_comm]
          exact Nat.div_mul_le_self _ _
      _ < 2 ^ 32 := by norm_num

/-- **C1 counterexample.** With exactly one active worker (`N = 2`) the sum of
the assigned range sizes is `2 × ⌊(2³²−1)/2⌋ = 4294967294`, which differs from
the claimed `N × ⌊2³² / N⌋ = 4294967296`. -/
theorem nonce_partition_sum_counterexample :
    ((fullRanges [true, false, false, false, false, false, false, false]).map Prod.snd).sum ≠
      (1 + activeCount [true, false, false, false, false, false, false, false]) *
        (2 ^ 32 / (1 + activeCount [true, false, false, false, false, false, false, false])) := by
  decide

end Partitioner

-- ============================================================================
-- Pool balancer: cluster_should_distribute_work (cluster_integration.c, 299-342)
-- ============================================================================

namespace Balancer

/-- The two distribution counters `cluster_primary_distributed` /
`cluster_secondary_distributed`. -/
structure BalState where
  primary : Nat
  secondary : Nat
deriving DecidableEq, Repr

/-- The clamp applied to `SYSTEM_MODULE.pool_balance`:
`if (primary_pct <= 0) primary_pct = 1; if (primary_pct >= 100) primary_pct = 99;`. -/
def clampPct (p : Int) : Nat :=
  if p ≤ 0 then 1 else if 100 ≤ p then 99 else p.toNat

/-- `cluster_should_distribute_work`: returns the decision and the updated
counters.  `poolId = 0` is the primary pool, anything else the secondary. -/
def shouldDistributeWork (poolBalance : Int) (poolId : Nat) (s : BalState) :
    Bool × BalState :=
  let pct := clampPct poolBalance
  let total := s.primary + s.secondary
  if total < 10 then
    -- Always distribute first few to get started
    if poolId = 0 then (true, { s with primary := s.primary + 1 })
    else (true, { s with secondary := s.secondary + 1 })
  else
    let targetPrimary := total * pct / 100
    let targetSecondary := total - targetPrimary
    if poolId = 0 then
      if s.primary ≤ targetPrimary then (true, { s with primary := s.primary + 1 })
      else (false, s)
    else
      if s.secondary ≤ targetSecondary then (true, { s with secondary := s.secondary + 1 })
      else (false, s)

/-- A run of the balancer over a sequence of offered notifies (pool ids). -/
def runBalancer (poolBalance : Int) (offers : List Nat) (s : BalState) : BalState :=
  offers.foldl (fun st pid => (shouldDistributeWork poolBalance pid st).2) s

theorem clampPct_le (p : Int) : clampPct p ≤ 99 := by
  unfold clampPct
  split
  · omega
  · split
    · omega
    · omega

/-- **C3 (amended).** The balancer, with the configured balance clamped into
`[1, 99]`: while `T = primary + secondary < 10` every notify is accepted
(warm-up); for `T ≥ 10` a notify is accepted iff its pool's distributed count
is `≤` its target (`target_primary = ⌊T·p/100⌋`,
`target_secondary = T − target_primary`); and any notify accepted past warm-up
leaves its pool's count at most one above that pool's target recomputed at the
new total.  (The claim's global bound `|accepted_primary − p·accepted_total/100| ≤ 1`
over arbitrary runs is false — warm-up accepts unconditionally, see the
counterexample.) -/
theorem pool_balancer_correct (p : Int) (pid : Nat) (s : BalState) :
    (s.primary + s.secondary < 10 → (shouldDistributeWork p pid s).1 = true)
    ∧ (10 ≤ s.primary + s.secondary →
        ((shouldDistributeWork p pid s).1 = true ↔
          (if pid = 0 then
            s.primary ≤ (s.primary + s.secondary) * clampPct p / 100
          else
            s.secondary ≤ (s.primary + s.secondary) -
              (s.primary + s.secondary) * clampPct p / 100)))
    ∧ (10 ≤ s.primary + s.secondary → (shouldDistributeWork p pid s).1 = true →
        (if pid = 0 then
          ((shouldDistributeWork p pid s).2).primary ≤
            (((shouldDistributeWork p pid s).2).primary +
              ((shouldDistributeWork p pid s).2).secondary) * clampPct p / 100 + 1
        else
          ((shouldDistributeWork p pid s).2).secondary ≤
            (((shouldDistributeWork p pid s).2).primary +
              ((shouldDistributeWork p pid s).2).secondary) -
              (((shouldDistributeWork p pid s).2).primary +
                ((shouldDistributeWork p pid s).2).secondary) * clampPct p / 100 + 1)) := by
  have hpct := clampPct_le p
  set pct := clampPct p with hpcteq
  unfold shouldDistributeWork
  by_cases hwarm : s.primary + s.secondary < 10
  · simp only [hwarm, if_true]
    refine ⟨fun _ => by split <;> rfl, fun h => absurd h (by omega), fun h => absurd h (by omega)⟩
  · simp only [hwarm, if_false]
    have hT : 10 ≤ s.primary + s.secondary := by omega
    set T := s.primary + s.secondary with hTeq
    refine ⟨fun h => h.elim, fun _ => ?_, fun _ => ?_⟩
    · by_cases hpid : pid = 0
      · simp only [hpid, if_true]
        by_cases hle : s.primary ≤ T * pct / 100
        · simp [hle]
        · simp [hle]
      · simp only [hpid, if_false]
        by_cases hle : s.secondary ≤ T - T * pct / 100
        · simp [hle]
        · simp [hle]
    · by_cases hpid : pid = 0
      · simp only [hpid, if_true]
        by_cases hle : s.primary ≤ T * pct / 100
        · simp only [hle, if_true]
          intro _
          show s.primary + 1 ≤ (s.primary + 1 + s.secondary) * pct / 100 + 1
          have hmono : T * pct / 100 ≤ (s.primary + 1 + s.secondary) * pct / 100 := by
            apply Nat.div_le_div_right
            apply Nat.mul_le_mul_right
            omega
          omega
        · simp [hle]
      · simp only [hpid, if_false]
        by_cases hle : s.secondary ≤ T - T * pct / 100
        · simp only [hle, if_true]
          intro _
          show s.secondary + 1 ≤
            (s.primary + (s.secondary + 1)) -
              (s.primary + (s.secondary + 1)) * pct / 100 + 1
          have hexp : (s.primary + (s.secondary + 1)) * pct = T * pct + pct := by
            rw [hTeq]; ring
          have h100 : (T * pct + pct) / 100 ≤ T * pct / 100 + 1 := by
            have h1 : T * pct + pct ≤ T * pct + 100 := by omega
            have h2 : (T * pct + 100) / 100 = T * pct / 100 + 1 :=
              Nat.add_div_right _ (by norm_num)
            have h3 : (T * pct + pct) / 100 ≤ (T * pct + 100) / 100 :=
              Nat.div_le_div_right h1
            omega
          have h4 : T * pct / 100 ≤ T := by
            calc T * pct / 100 ≤ T * 100 / 100 := by
                  apply Nat.div_le_div_right
                  exact Nat.mul_le_mul_left _ (by omega)
            _ = T := Nat.mul_div_cancel _ (by omega)
          rw [hexp] at *
          omega
        · simp [hle]

/-- Witness: instantiates `pool_balancer_correct` at `p = 50`, a primary offer
and the concrete state (5, 5), discharging its hypotheses. -/
theorem pool_balancer_correct_witness :
    (10 ≤ 5 + 5) ∧
      ((shouldDistributeWork 50 0 ⟨5, 5⟩).1 = true ↔
        (if (0 : Nat) = 0 then 5 ≤ (5 + 5) * clampPct 50 / 100
         else 5 ≤ (5 + 5) - (5 + 5) * clampPct 50 / 100)) :=
  ⟨by decide, (pool_balancer_correct 50 0 ⟨5, 5⟩).2.1 (by decide)⟩

/-- **C3 counterexample.** Offer ten primary notifies from the initial state
with balance `p = 50`: all ten are accepted during warm-up, so
`accepted_primary = 10`, `accepted_total = 10`, and
`|accepted_primary − p·accepted_total/100| = |10 − 5| = 5 > 1`, refuting the
claimed bound for this run with `T = 10 ≥ 10` offered notifies. -/
theorem pool_balancer_counterexample :
    ¬(|((runBalancer 50 (List.replicate 10 0) ⟨0, 0⟩).primary : ℤ) -
        50 * (((runBalancer 50 (List.replicate 10 0) ⟨0, 0⟩).primary : ℤ) +
          ((runBalancer 50 (List.replicate 10 0) ⟨0, 0⟩).secondary : ℤ)) / 100| ≤ 1) := by
  decide

end Balancer

-- ============================================================================
-- Share fan-in: is_duplicate_share / record_share / cluster_master_receive_share
-- (cluster_master.c, lines 269-346)
-- ============================================================================

namespace ShareFanIn

/-- `cluster_share_t` (cluster.h). -/
structure Share where
  jobId : Nat
  nonce : Nat
  extranonce2 : List Nat
  extranonce2Len : Nat
  ntime : Nat
  version : Nat
  slaveId : Nat
  timestamp : Int
  poolId : Nat
deriving DecidableEq, Repr

/-- One entry of the `recent_shares` deduplication ring. -/
structure RecentEntry where
  nonce : Nat
  jobId : Nat
  slaveId : Nat
deriving DecidableEq, Repr

/-- `RECENT_SHARES_SIZE` (cluster_master.c). -/
def RECENT_SHARES_SIZE : Nat := 32

/-- `CLUSTER_MAX_SLAVES`. -/
def CLUSTER_MAX_SLAVES : Nat := 8

/-- `CLUSTER_SHARE_QUEUE_SIZE` (cluster_config.h). -/
def CLUSTER_SHARE_QUEUE_SIZE : Nat := 16

/-- The master-side state touched by `cluster_master_receive_share`:
the `recent_shares` ring (`none` = `valid == false`), its index, the per-slave
`shares_submitted` and `last_seen` columns of the slave table, the FreeRTOS
share queue (FIFO, front = next to pop), and `total_shares`. -/
structure MasterState where
  recentShares : List (Option RecentEntry)
  recentSharesIdx : Nat
  sharesSubmitted : List Nat
  lastSeen : List Int
  shareQueue : List Share
  totalShares : Nat
deriving DecidableEq, Repr

/-- `is_duplicate_share`: scan the whole ring for a valid entry matching
`(nonce, job_id, slave_id)`. -/
def isDuplicateShare (st : MasterState) (sh : Share) : Bool :=
  st.recentShares.any fun e =>
    match e with
    | some r => r.nonce == sh.nonce && r.jobId == sh.jobId && r.slaveId == sh.slaveId
    | none => false

/-- `record_share`: overwrite the slot at the ring index, mark valid, advance
the index mod `RECENT_SHARES_SIZE`. -/
def recordShare (st : MasterState) (sh : Share) : MasterState :=
  { st with
    recentShares := st.recentShares.set st.recentSharesIdx
      (some ⟨sh.nonce, sh.jobId, sh.slaveId⟩)
    recentSharesIdx := (st.recentSharesIdx + 1) % RECENT_SHARES_SIZE }

/-- The `esp_err_t` values `cluster_master_receive_share` can return. -/
inductive EspErr where
  | ok
  | invalidArg
  | noMem
deriving DecidableEq, Repr

/-- `cluster_master_receive_share` (`now` is `esp_timer_get_time() / 1000`):
reject an out-of-range slave id; silently accept (and drop) a duplicate;
otherwise record the share, credit `shares_submitted`, refresh `last_seen`,
and enqueue for submission — unless the 16-deep share queue is full, in which
case the share is dropped with `ESP_ERR_NO_MEM` (and `total_shares` is not
incremented). -/
def receiveShare (now : Int) (st : MasterState) (sh : Share) : EspErr × MasterState :=
  if CLUSTER_MAX_SLAVES ≤ sh.slaveId then (.invalidArg, st)
  else if isDuplicateShare st sh then (.ok, st)
  else
    let st1 := recordShare st sh
    let st2 := { st1 with
      sharesSubmitted :=
        st1.sharesSubmitted.set sh.slaveId (st1.sharesSubmitted.getD sh.slaveId 0 + 1)
      lastSeen := st1.lastSeen.set sh.slaveId now }
    if st2.shareQueue.length < CLUSTER_SHARE_QUEUE_SIZE then
      (.ok, { st2 with shareQueue := st2.shareQueue ++ [sh], totalShares := st2.totalShares + 1 })
    else
      (.noMem, st2)

/-- Well-formedness of the C state: the ring has its 32 slots (index in
range) and the slave table its 8 rows. -/
def WF (st : MasterState) : Prop :=
  st.recentShares.length = RECENT_SHARES_SIZE
  ∧ st.recentSharesIdx < RECENT_SHARES_SIZE
  ∧ st.sharesSubmitted.length = CLUSTER_MAX_SLAVES
  ∧ st.lastSeen.length = CLUSTER_MAX_SLAVES

theorem isDuplicate_after_record (st : MasterState) (sh : Share)
    (hlen : st.recentShares.length = RECENT_SHARES_SIZE)
    (hidx : st.recentSharesIdx < RECENT_SHARES_SIZE) :
    isDuplicateShare (recordShare st sh) sh = true := by
  unfold isDuplicateShare recordShare
  simp only [List.any_eq_true]
  refine ⟨some ⟨sh.nonce, sh.jobId, sh.slaveId⟩, ?_, by simp⟩
  have hidx' : st.recentSharesIdx <
      (st.recentShares.set st.recentSharesIdx (some ⟨sh.nonce, sh.jobId, sh.slaveId⟩)).length := by
    rw [List.length_set]; omega
  have hmem := List.getElem_mem hidx'
  rw [List.getElem_set_self hidx'] at hmem
  exact hmem

/-- **C2 (amended).** A share whose `(nonce, job_id, origin_id)` triple is
already in the recent-share set is dropped silently: the receive reports
`ESP_OK` and the state (in particular the submit queue) is unchanged.  A
non-duplicate share with `origin_id < MAX_WORKERS` is recorded in the set,
credits the origin's `shares_submitted`, refreshes `last_seen`, and — provided
the 16-deep submit queue is not full — is enqueued for submission; receiving
the same share again immediately afterwards changes nothing, so exactly one
copy reaches the queue.  (The claim's unconditional "is enqueued" fails when
the queue is full: see the counterexample.) -/
theorem receive_share_correct (now : Int) (st : MasterState) (sh : Share)
    (hwf : WF st) :
    (isDuplicateShare st sh = true → sh.slaveId < CLUSTER_MAX_SLAVES →
       receiveShare now st sh = (.ok, st))
    ∧ (isDuplicateShare st sh = false → sh.slaveId < CLUSTER_MAX_SLAVES →
        st.shareQueue.length < CLUSTER_SHARE_QUEUE_SIZE →
       receiveShare now st sh =
         (.ok,
          { st with
            recentShares := st.recentShares.set st.recentSharesIdx
              (some ⟨sh.nonce, sh.jobId, sh.slaveId⟩)
            recentSharesIdx := (st.recentSharesIdx + 1) % RECENT_SHARES_SIZE
            sharesSubmitted :=
              st.sharesSubmitted.set sh.slaveId (st.sharesSubmitted.getD sh.slaveId 0 + 1)
            lastSeen := st.lastSeen.set sh.slaveId now
            shareQueue := st.shareQueue ++ [sh]
            totalShares := st.totalShares + 1 })
       ∧ isDuplicateShare (receiveShare now st sh).2 sh = true
       ∧ receiveShare now (receiveShare now st sh).2 sh =
           (.ok, (receiveShare now st sh).2)) := by
  obtain ⟨hlen, hidx, _, _⟩ := hwf
  constructor
  · intro hdup hid
    unfold receiveShare
    rw [if_neg (by omega), hdup]
    simp
  · intro hdup hid hq
    set S2 : MasterState :=
      { st with
        recentShares := st.recentShares.set st.recentSharesIdx
          (some ⟨sh.nonce, sh.jobId, sh.slaveId⟩)
        recentSharesIdx := (st.recentSharesIdx + 1) % RECENT_SHARES_SIZE
        sharesSubmitted :=
          st.sharesSubmitted.set sh.slaveId (st.sharesSubmitted.getD sh.slaveId 0 + 1)
        lastSeen := st.lastSeen.set sh.slaveId now
        shareQueue := st.shareQueue ++ [sh]
        totalShares := st.totalShares + 1 } with hS2
    have hstep : receiveShare now st sh = (.ok, S2) := by
      unfold receiveShare
      rw [if_neg (by omega), hdup]
      simp only [Bool.false_eq_true, if_false, recordShare]
      rw [if_pos (by simpa using hq)]
    have hdupS : isDuplicateShare S2 sh = true :=
      isDuplicate_after_record st sh hlen hidx
    refine ⟨hstep, by rw [hstep]; exact hdupS, ?_⟩
    have hfix : receiveShare now S2 sh = (.ok, S2) := by
      unfold receiveShare
      rw [if_neg (by omega), hdupS]
      simp
    calc receiveShare now (receiveShare now st sh).2 sh
        = receiveShare now S2 sh := by rw [hstep]
      _ = (.ok, S2) := hfix
      _ = (.ok, (receiveShare now st sh).2) := by rw [hstep]

/-- Witness for `receive_share_correct`: a fresh share into the empty
well-formed master state is recorded — looking it up again reports a
duplicate. -/
def emptyMasterState : MasterState :=
  { recentShares := List.replicate 32 none
    recentSharesIdx := 0
    sharesSubmitted := List.replicate 8 0
    lastSeen := List.replicate 8 0
    shareQueue := []
    totalShares := 0 }

def sampleShare : Share :=
  { jobId := 41393, nonce := 2863311530, extranonce2 := [1, 2, 3, 4]
    extranonce2Len := 4, ntime := 1700000000, version := 536870912
    slaveId := 0, timestamp := 0, poolId := 0 }

theorem receive_share_correct_witness :
    isDuplicateShare (receiveShare 5 emptyMasterState sampleShare).2 sampleShare = true :=
  ((receive_share_correct 5 emptyMasterState sampleShare
      (by constructor <;> simp [emptyMasterState, RECENT_SHARES_SIZE, CLUSTER_MAX_SLAVES])).2
    (by decide) (by decide) (by decide)).2.1

/-- A master state whose 16-deep share queue is already full. -/
def fullQueueState : MasterState :=
  { emptyMasterState with shareQueue := List.replicate 16 sampleShare }

/-- A fresh (non-duplicate) share distinct from the queued ones. -/
def freshShare : Share :=
  { sampleShare with nonce := 7, jobId := 9, slaveId := 1 }

/-- **C2 counterexample.** A non-duplicate share with a valid origin arriving
while the submit queue holds 16 entries is *not* enqueued: the receive
returns `ESP_ERR_NO_MEM` and the queue is unchanged, refuting the claim's
unconditional "is enqueued for submission". -/
theorem receive_share_counterexample :
    isDuplicateShare fullQueueState freshShare = false
    ∧ freshShare.slaveId < CLUSTER_MAX_SLAVES
    ∧ (receiveShare 5 fullQueueState freshShare).1 = .noMem
    ∧ (receiveShare 5 fullQueueState freshShare).2.shareQueue = fullQueueState.shareQueue := by
  refine ⟨by decide, by decide, by decide, by decide⟩

end ShareFanIn

-- ============================================================================
-- Job mapping ring: cluster_master_store_job_mapping /
-- cluster_master_find_job_mapping (cluster_integration.c, lines 434-500)
-- ============================================================================

namespace JobMap

/-- `MAX_JOB_MAPPINGS` (cluster_integration.c). -/
def MAX_JOB_MAPPINGS : Nat := 256

/-- One `job_mappings[]` entry. -/
structure Mapping where
  numericId : Nat
  jobIdStr : String
  extranonce2Str : String
  ntime : Nat
  version : Nat
  poolId : Nat
deriving DecidableEq, Repr

/-- The ring (`none` = `valid == false`) together with the monotonically
increasing `job_mapping_index`. -/
structure JobMapState where
  mappings : List (Option Mapping)
  index : Nat
deriving DecidableEq, Repr

/-- `cluster_master_store_job_mapping`: write slot `index % MAX_JOB_MAPPINGS`,
mark valid, increment the index. -/
def storeJobMapping (st : JobMapState) (m : Mapping) : JobMapState :=
  { mappings := st.mappings.set (st.index % MAX_JOB_MAPPINGS) (some m)
    index := st.index + 1 }

/-- A sequence of stores (one per accepted notify). -/
def storeSeq (st : JobMapState) (ms : List Mapping) : JobMapState :=
  ms.foldl storeJobMapping st

/-- `cluster_master_find_job_mapping`: first a linear scan for an exact
`(numeric_id, pool_id)` match, then a fallback scan on `numeric_id` only. -/
def findJobMapping (st : JobMapState) (numericId poolId : Nat) : Option String :=
  match st.mappings.findSome? (fun e =>
    match e with
    | some m =>
        if m.numericId = numericId ∧ m.poolId = poolId then some m.jobIdStr else none
    | none => none) with
  | some s => some s
  | none =>
      st.mappings.findSome? (fun e =>
        match e with
        | some m => if m.numericId = numericId then some m.jobIdStr else none
        | none => none)

theorem storeSeq_mappings_length (ms : List Mapping) (st : JobMapState) :
    (storeSeq st ms).mappings.length = st.mappings.length := by
  induction ms generalizing st with
  | nil => rfl
  | cons m rest ih =>
    show (storeSeq (storeJobMapping st m) rest).mappings.length = _
    rw [ih]
    simp [storeJobMapping]

theorem storeSeq_index (ms : List Mapping) (st : JobMapState) :
    (storeSeq st ms).index = st.index + ms.length := by
  induction ms generalizing st with
  | nil => rfl
  | cons m rest ih =>
    show (storeSeq (storeJobMapping st m) rest).index = _
    rw [ih]
    simp [storeJobMapping]
    omega

/-- Preservation: a slot none of the stores lands on is unchanged. -/
theorem storeSeq_preserves :
    ∀ (ms : List Mapping) (st : JobMapState) (s : Nat),
      (∀ k < ms.length, (st.index + k) % MAX_JOB_MAPPINGS ≠ s) →
      (storeSeq st ms).mappings[s]? = st.mappings[s]? := by
  intro ms
  induction ms with
  | nil => intro st s _; rfl
  | cons m rest ih =>
    intro st s hmiss
    show (storeSeq (storeJobMapping st m) rest).mappings[s]? = _
    rw [ih (storeJobMapping st m) s ?_]
    · show (st.mappings.set (st.index % MAX_JOB_MAPPINGS) (some m))[s]? = _
      apply List.getElem?_set_ne
      have := hmiss 0 (by simp)
      simpa using this
    · intro k hk
      show (st.index + 1 + k) % MAX_JOB_MAPPINGS ≠ s
      have := hmiss (k + 1) (by simpa using Nat.succ_lt_succ hk)
      simp only [MAX_JOB_MAPPINGS] at this ⊢
      omega

/-- The `k`-th store of a run of at most `MAX_JOB_MAPPINGS` stores is still in
its slot at the end of the run. -/
theorem storeSeq_written :
    ∀ (ms : List Mapping) (st : JobMapState) (k : Nat) (hk : k < ms.length),
      ms.length ≤ MAX_JOB_MAPPINGS →
      st.mappings.length = MAX_JOB_MAPPINGS →
      (storeSeq st ms).mappings[(st.index + k) % MAX_JOB_MAPPINGS]? =
        some (some (ms.get ⟨k, hk⟩)) := by
  intro ms
  induction ms with
  | nil =>
    intro st k hk
    exact absurd hk (by simp)
  | cons m rest ih =>
    intro st k hk hlen hcap
    cases k with
    | zero =>
      show (storeSeq (storeJobMapping st m) rest).mappings[(st.index + 0) % MAX_JOB_MAPPINGS]? = _
      rw [storeSeq_preserves rest (storeJobMapping st m) _ ?_]
      · show (st.mappings.set (st.index % MAX_JOB_MAPPINGS) (some m))[(st.index + 0) % MAX_JOB_MAPPINGS]? = _
        have hlt : st.index % MAX_JOB_MAPPINGS < st.mappings.length := by
          rw [hcap]
          exact Nat.mod_lt _ (by norm_num [MAX_JOB_MAPPINGS])
        simpa using List.getElem?_set_self hlt
      · intro k' hk'
        show (st.index + 1 + k') % MAX_JOB_MAPPINGS ≠ (st.index + 0) % MAX_JOB_MAPPINGS
        have hk'' : k' < MAX_JOB_MAPPINGS - 1 := by
          simp only [List.length_cons, MAX_JOB_MAPPINGS] at hlen ⊢
          omega
        simp only [MAX_JOB_MAPPINGS] at hk'' ⊢
        omega
    | succ k' =>
      show (storeSeq (storeJobMapping st m) rest).mappings[(st.index + (k' + 1)) % MAX_JOB_MAPPINGS]? = _
      have hk2 : k' < rest.length := by simpa using hk
      have hrw : st.index + (k' + 1) = (storeJobMapping st m).index + k' := by
        simp only [storeJobMapping]
        omega
      rw [hrw, ih (storeJobMapping st m) k' hk2
        (by simp only [List.length_cons] at hlen; omega)
        (by simp [storeJobMapping, hcap])]
      rfl

/-- Every entry of the ring after a run of stores is an old entry or one of
the stored mappings. -/
theorem storeSeq_mem :
    ∀ (ms : List Mapping) (st : JobMapState) (x : Option Mapping),
      x ∈ (storeSeq st ms).mappings → x ∈ st.mappings ∨ ∃ m ∈ ms, x = some m := by
  intro ms
  induction ms with
  | nil =>
    intro st x hx
    exact Or.inl hx
  | cons m rest ih =>
    intro st x hx
    rcases ih (storeJobMapping st m) x hx with hold | ⟨m', hm', rfl⟩
    · rcases List.mem_or_eq_of_mem_set hold with h | rfl
      · exact Or.inl h
      · exact Or.inr ⟨m, by simp, rfl⟩
    · exact Or.inr ⟨m', by simp [hm'], rfl⟩

theorem findSome?_all_eq {α β : Type} (l : List α) (f : α → Option β) (v : β)
    (hall : ∀ x ∈ l, f x = none ∨ f x = some v) (hex : ∃ x ∈ l, f x = some v) :
    l.findSome? f = some v := by
  induction l with
  | nil =>
    obtain ⟨x, hx, _⟩ := hex
    cases hx
  | cons a t ih =>
    rcases hall a (by simp) with ha | ha
    · rw [List.findSome?_cons, ha]
      apply ih
      · intro x hx
        exact hall x (by simp [hx])
      · obtain ⟨x, hx, hfx⟩ := hex
        rcases List.mem_cons.mp hx with rfl | hxt
        · rw [ha] at hfx
          cases hfx
        · exact ⟨x, hxt, hfx⟩
    · rw [List.findSome?_cons, ha]

/-- **C5 (amended).** A `JobMapping` entry stored for key
`(job_id_numeric, pool_id)` is still returned by lookup after at most
`MAP_CAPACITY − 1 = 255` intervening stores of other notifies (whose numeric
ids differ), and returns a miss already after `MAP_CAPACITY = 256` intervening
stores — one fewer than the claim's `MAP_CAPACITY` / `MAP_CAPACITY + 1`:
the ring slot written by the entry is reused by the 256-th subsequent store. -/
theorem job_mapping_window (st : JobMapState) (m : Mapping) (ms : List Mapping)
    (hcap : st.mappings.length = MAX_JOB_MAPPINGS)
    (hfresh : ∀ x ∈ st.mappings, ∀ m', x = some m' → m'.numericId ≠ m.numericId)
    (hothers : ∀ m' ∈ ms, m'.numericId ≠ m.numericId) :
    (ms.length ≤ MAX_JOB_MAPPINGS - 1 →
       findJobMapping (storeSeq (storeJobMapping st m) ms) m.numericId m.poolId =
         some m.jobIdStr)
    ∧ (ms.length = MAX_JOB_MAPPINGS →
       findJobMapping (storeSeq (storeJobMapping st m) ms) m.numericId m.poolId = none) := by
  have h256 : MAX_JOB_MAPPINGS = 256 := rfl
  have hcap1 : (storeJobMapping st m).mappings.length = MAX_JOB_MAPPINGS := by
    simp [storeJobMapping, hcap]
  constructor
  · intro hlen
    -- the stored entry survives: its slot is not touched by ≤ 255 stores
    have hslot : (storeSeq (storeJobMapping st m) ms).mappings[st.index % MAX_JOB_MAPPINGS]? =
        (storeJobMapping st m).mappings[st.index % MAX_JOB_MAPPINGS]? := by
      apply storeSeq_preserves
      intro k hk
      show (st.index + 1 + k) % MAX_JOB_MAPPINGS ≠ st.index % MAX_JOB_MAPPINGS
      simp only [MAX_JOB_MAPPINGS] at h256 hlen ⊢
      omega
    have hset : (storeJobMapping st m).mappings[st.index % MAX_JOB_MAPPINGS]? = some (some m) := by
      show (st.mappings.set (st.index % MAX_JOB_MAPPINGS) (some m))[st.index % MAX_JOB_MAPPINGS]? = _
      apply List.getElem?_set_self
      rw [hcap]
      exact Nat.mod_lt _ (by norm_num [MAX_JOB_MAPPINGS])
    have hmem : some m ∈ (storeSeq (storeJobMapping st m) ms).mappings := by
      have h := hslot.trans hset
      obtain ⟨hl, he⟩ := List.getElem?_eq_some_iff.mp h
      exact he ▸ List.getElem_mem hl
    have hall : ∀ x ∈ (storeSeq (storeJobMapping st m) ms).mappings,
        (match x with
          | some m' =>
              if m'.numericId = m.numericId ∧ m'.poolId = m.poolId
              then some m'.jobIdStr else none
          | none => none) = none ∨
        (match x with
          | some m' =>
              if m'.numericId = m.numericId ∧ m'.poolId = m.poolId
              then some m'.jobIdStr else none
          | none => none) = some m.jobIdStr := by
      intro x hx
      rcases storeSeq_mem ms (storeJobMapping st m) x hx with hold | ⟨m', _, rfl⟩
      · rcases List.mem_or_eq_of_mem_set hold with horig | rfl
        · cases x with
          | none => exact Or.inl rfl
          | some m'' =>
            have hne := hfresh _ horig m'' rfl
            exact Or.inl (by simp [hne])
        · exact Or.inr (by simp)
      · by_cases hid : m'.numericId = m.numericId
        · exact absurd hid (hothers m' (by assumption))
        · exact Or.inl (by simp [hid])
    have hexact : (storeSeq (storeJobMapping st m) ms).mappings.findSome? (fun e =>
        match e with
        | some m' =>
            if m'.numericId = m.numericId ∧ m'.poolId = m.poolId
            then some m'.jobIdStr else none
        | none => none) = some m.jobIdStr := by
      apply findSome?_all_eq _ _ _ hall
      exact ⟨some m, hmem, by simp⟩
    unfold findJobMapping
    rw [hexact]
  · intro hlen
    -- every slot has been rewritten by one of the 256 intervening stores
    have hflen : (storeSeq (storeJobMapping st m) ms).mappings.length = MAX_JOB_MAPPINGS := by
      rw [storeSeq_mappings_length, hcap1]
    have hentry : ∀ x ∈ (storeSeq (storeJobMapping st m) ms).mappings,
        ∀ m', x = some m' → m'.numericId ≠ m.numericId := by
      intro x hx
      obtain ⟨s, hs, hxs⟩ := List.mem_iff_getElem.mp hx
      rw [hflen] at hs
      obtain ⟨k, hk, hks⟩ : ∃ k, k < MAX_JOB_MAPPINGS ∧
          ((storeJobMapping st m).index + k) % MAX_JOB_MAPPINGS = s := by
        refine ⟨(MAX_JOB_MAPPINGS + s - (storeJobMapping st m).index % MAX_JOB_MAPPINGS) %
          MAX_JOB_MAPPINGS, ?_, ?_⟩
        · simp only [MAX_JOB_MAPPINGS]
          omega
        · simp only [MAX_JOB_MAPPINGS] at hs ⊢
          omega
      have hw := storeSeq_written ms (storeJobMapping st m) k (by omega)
        (le_of_eq hlen) hcap1
      rw [hks] at hw
      have hxval : x = some (ms.get ⟨k, by omega⟩) := by
        have := List.getElem?_eq_getElem ((hflen.symm ▸ hs : s < _))
        rw [hxs] at this
        rw [this] at hw
        exact Option.some_injective _ hw
      intro m' hxm'
      rw [hxval] at hxm'
      have heq : ms.get ⟨k, by omega⟩ = m' := Option.some_injective _ hxm'
      rw [← heq]
      have hmem' : ms.get ⟨k, by omega⟩ ∈ ms := by
        rw [List.get_eq_getElem]
        exact List.getElem_mem _
      exact hothers _ hmem'
    have hnone1 : (storeSeq (storeJobMapping st m) ms).mappings.findSome? (fun e =>
        match e with
        | some m' =>
            if m'.numericId = m.numericId ∧ m'.poolId = m.poolId
            then some m'.jobIdStr else none
        | none => none) = none := by
      rw [List.findSome?_eq_none_iff]
      intro x hx
      cases x with
      | none => rfl
      | some m'' =>
        have := hentry _ hx m'' rfl
        simp [this]
    have hnone2 : (storeSeq (storeJobMapping st m) ms).mappings.findSome? (fun e =>
        match e with
        | some m' => if m'.numericId = m.numericId then some m'.jobIdStr else none
        | none => none) = none := by
      rw [List.findSome?_eq_none_iff]
      intro x hx
      cases x with
      | none => rfl
      | some m'' =>
        have := hentry _ hx m'' rfl
        simp [this]
    unfold findJobMapping
    rw [hnone1, hnone2]

/-- An empty job-mapping ring. -/
def emptyJobMap : JobMapState := ⟨List.replicate 256 none, 0⟩

/-- The stored notify of interest (key `(1, 0)`, pool job id `"a1b2"`). -/
def cexStored : Mapping := ⟨1, "a1b2", "", 0, 0, 0⟩

/-- An intervening notify with a different numeric id. -/
def cexIntervener : Mapping := ⟨2, "ffff", "", 0, 0, 0⟩

set_option maxRecDepth 4000 in
/-- Witness for `job_mapping_window`: with no intervening stores the lookup
returns the stored pool job id. -/
theorem job_mapping_window_witness :
    findJobMapping (storeSeq (storeJobMapping emptyJobMap cexStored) [])
      cexStored.numericId cexStored.poolId = some cexStored.jobIdStr :=
  (job_mapping_window emptyJobMap cexStored [] (by simp [emptyJobMap, MAX_JOB_MAPPINGS])
      (by
        intro x hx m' hxm'
        rw [List.eq_of_mem_replicate hx] at hxm'
        cases hxm')
      (by simp)).1
    (by norm_num [MAX_JOB_MAPPINGS])

set_option maxRecDepth 100000 in
/-- **C5 counterexample.** After exactly `MAP_CAPACITY = 256` intervening
stores of other notifies the lookup already misses (the claim allows a miss
only after `MAP_CAPACITY + 1`): the entry's ring slot is reused by the 256-th
intervening store. -/
theorem job_mapping_counterexample :
    findJobMapping (storeSeq (storeJobMapping emptyJobMap cexStored)
        (List.replicate 256 cexIntervener)) 1 0 = none := by
  decide

end JobMap

-- ============================================================================
-- Frame codec: cluster_protocol.c — field scanning, number formatting and
-- parsing, hex helpers, encode/decode of CLWRK and CLSHR, decode of CLTIM
-- ============================================================================

namespace Codec

/-- `get_next_field` (cluster_protocol.c, lines 403-417) on a `char` list with
the caller's buffer bound `maxLen` (`field[max_len]` in C, so at most
`max_len - 1` characters are copied): copy until `','`, `'*'` or the end of
the string, skip one `','`, and return `none` for the cursor exactly when the
C function returns `NULL` (rest empty or starting with `'*'`). -/
def getNextField (maxLen : Nat) (s : List Char) : List Char × Option (List Char) :=
  let field := (s.takeWhile (fun c => ¬(c = ',' ∨ c = '*'))).take (maxLen - 1)
  let rest := s.drop field.length
  let rest2 := if rest.head? = some ',' then rest.tail else rest
  (field,
   match rest2.head? with
   | none => none
   | some c => if c = '*' then none else some rest2)

/-- Reading a field through a possibly-NULL cursor.  (The C code calls
`get_next_field(NULL, …)`, which returns `NULL` and leaves the field buffer
with its previous contents; on the inputs we evaluate — full frames produced
by the encoder — that path is never taken, and the model returns the empty
field instead.) -/
def readField (maxLen : Nat) (cur : Option (List Char)) : List Char × Option (List Char) :=
  match cur with
  | none => ([], none)
  | some s => getNextField maxLen s

/-- `strtoul(field, NULL, 10)` on a field: the leading run of decimal digits.
(The C function also skips whitespace and accepts a sign; no encoder output
contains either.) -/
def parseDec (s : List Char) : Nat :=
  (s.takeWhile Char.isDigit).foldl (fun a c => 10 * a + (c.toNat - 48)) 0

/-- One decimal digit character. -/
def decDigit (d : Nat) : Char := Char.ofNat (48 + d)

/-- Fuel-driven digit emitter (structural recursion so that concrete frames
kernel-evaluate). -/
def decReprGo : Nat → Nat → List Char
  | 0, _ => []
  | fuel + 1, n =>
    if n < 10 then [decDigit n]
    else decReprGo fuel (n / 10) ++ [decDigit (n % 10)]

/-- `snprintf` `%lu` of a nonnegative value: standard decimal notation. -/
def decRepr (n : Nat) : List Char := decReprGo (n + 1) n

theorem decReprGo_succ (f n : Nat) :
    decReprGo (f + 1) n =
      if n < 10 then [decDigit n] else decReprGo f (n / 10) ++ [decDigit (n % 10)] := rfl

theorem decReprGo_irrel : ∀ f₁ f₂ n : Nat, n < f₁ → n < f₂ →
    decReprGo f₁ n = decReprGo f₂ n := by
  intro f₁
  induction f₁ with
  | zero => intro f₂ n h1 h2; omega
  | succ f ih =>
    intro f₂ n h1 h2
    cases f₂ with
    | zero => omega
    | succ g =>
      rw [decReprGo_succ, decReprGo_succ]
      by_cases h : n < 10
      · rw [if_pos h, if_pos h]
      · rw [if_neg h, if_neg h]
        have hd : n / 10 < n := Nat.div_lt_self (by omega) (by omega)
        rw [ih g (n / 10) (by omega) (by omega)]

/-- The recursion `decRepr` implements. -/
theorem decRepr_eq (n : Nat) :
    decRepr n = if n < 10 then [decDigit n]
      else decRepr (n / 10) ++ [decDigit (n % 10)] := by
  show decReprGo (n + 1) n = _
  rw [decReprGo_succ]
  by_cases h : n < 10
  · rw [if_pos h, if_pos h]
  · rw [if_neg h, if_neg h]
    have hd : n / 10 < n := Nat.div_lt_self (by omega) (by omega)
    rw [decReprGo_irrel n (n / 10 + 1) (n / 10) (by omega) (by omega)]
    rfl

/-- One lowercase hex digit character (`%02x`). -/
def hexDigit (d : Nat) : Char :=
  if d < 10 then Char.ofNat (48 + d) else Char.ofNat (87 + d)

/-- One uppercase hex digit character (`%02X`, used for the checksum). -/
def hexDigitUpper (d : Nat) : Char :=
  if d < 10 then Char.ofNat (48 + d) else Char.ofNat (55 + d)

/-- The value of a hex digit as `strtol(…, 16)` reads it (0 for other
characters, which never occur in encoder output). -/
def hexDigitVal (c : Char) : Nat :=
  if c.isDigit then c.toNat - 48
  else if 'a' ≤ c ∧ c ≤ 'f' then c.toNat - 87
  else if 'A' ≤ c ∧ c ≤ 'F' then c.toNat - 55
  else 0

/-- `%02x` of one byte (a `uint8_t`, so always exactly two digits). -/
def byteToHex (b : Nat) : List Char := [hexDigit (b / 16 % 16), hexDigit (b % 16)]

/-- `%02X` of one byte. -/
def byteToHexUpper (b : Nat) : List Char :=
  [hexDigitUpper (b / 16 % 16), hexDigitUpper (b % 16)]

/-- `cluster_protocol_bytes_to_hex`. -/
def bytesToHex (bs : List Nat) : List Char := bs.flatMap byteToHex

/-- The pair loop of `cluster_protocol_hex_to_bytes` (an odd trailing
character is dropped, matching `byte_len = hex_len / 2`). -/
def hexPairs : List Char → List Nat
  | c1 :: c2 :: rest => (16 * hexDigitVal c1 + hexDigitVal c2) :: hexPairs rest
  | _ => []

/-- `cluster_protocol_hex_to_bytes` with its output cap `max_len`; the C
function returns `byte_len`, which is the length of this list. -/
def hexToBytes (hex : List Char) (maxLen : Nat) : List Nat :=
  (hexPairs hex).take maxLen

/-- `cluster_protocol_calc_checksum`: XOR of all byte values. -/
def calcChecksum (s : List Char) : Nat :=
  s.foldl (fun a c => a.xor (c.toNat % 256) % 256) 0

/-- `cluster_protocol_decode_timing` (cluster_protocol.c, lines 765-785):
parse the single field as a decimal `uint16_t` and require it in
`[400, 1000]`. -/
def decodeTiming (payload : List Char) : Option Nat :=
  let field := (getNextField 16 payload).1
  let val := parseDec field % 65536
  if val < 400 ∨ 1000 < val then none else some val


/-- A field as the encoder emits it: free of the separator and terminator. -/
def fieldOk (f : List Char) : Prop := ∀ c ∈ f, ¬(c = ',' ∨ c = '*')

instance (f : List Char) : Decidable (fieldOk f) :=
  List.decidableBAll _ f

/-- The cursor stays non-NULL when the remainder starts with a non-`'*'`
character. -/
def firstCharOk (l : List Char) : Prop := l ≠ [] ∧ l.head? ≠ some '*'

theorem takeWhile_field (f : List Char) (sep : Char) (rest : List Char)
    (hf : fieldOk f) (hsep : sep = ',' ∨ sep = '*') :
    (f ++ sep :: rest).takeWhile (fun c => ¬(c = ',' ∨ c = '*')) = f := by
  induction f with
  | nil =>
    simp only [List.nil_append, List.takeWhile_cons]
    rw [if_neg]
    simp only [decide_eq_true_eq]
    rcases hsep with rfl | rfl <;> simp
  | cons c t ih =>
    have hc : ¬(c = ',' ∨ c = '*') := hf c (by simp)
    simp only [List.cons_append, List.takeWhile_cons]
    rw [if_pos (by simpa using hc)]
    rw [ih (fun x hx => hf x (by simp [hx]))]

theorem getNextField_sep (maxLen : Nat) (f rest : List Char)
    (hf : fieldOk f) (hlen : f.length ≤ maxLen - 1) (hrest : firstCharOk rest) :
    getNextField maxLen (f ++ ',' :: rest) = (f, some rest) := by
  obtain ⟨hne, hstar⟩ := hrest
  simp only [getNextField]
  rw [takeWhile_field f ',' rest hf (Or.inl rfl), List.take_of_length_le hlen,
    List.drop_left f]
  simp only [List.head?_cons, List.tail_cons, if_true]
  cases rest with
  | nil => exact absurd rfl hne
  | cons c t =>
    simp only [List.head?_cons]
    rw [if_neg ?_]
    intro hc
    exact hstar (by simp [hc])

theorem getNextField_term (maxLen : Nat) (f rest : List Char)
    (hf : fieldOk f) (hlen : f.length ≤ maxLen - 1) :
    getNextField maxLen (f ++ '*' :: rest) = (f, none) := by
  simp only [getNextField]
  rw [takeWhile_field f '*' rest hf (Or.inr rfl), List.take_of_length_le hlen,
    List.drop_left f]
  simp

theorem readField_sep (maxLen : Nat) (f rest : List Char)
    (hf : fieldOk f) (hlen : f.length ≤ maxLen - 1) (hrest : firstCharOk rest) :
    readField maxLen (some (f ++ ',' :: rest)) = (f, some rest) :=
  getNextField_sep maxLen f rest hf hlen hrest

theorem readField_term (maxLen : Nat) (f rest : List Char)
    (hf : fieldOk f) (hlen : f.length ≤ maxLen - 1) :
    readField maxLen (some (f ++ '*' :: rest)) = (f, none) :=
  getNextField_term maxLen f rest hf hlen

theorem decDigit_spec : ∀ d < 10, (decDigit d).isDigit = true
    ∧ decDigit d ≠ ',' ∧ decDigit d ≠ '*' ∧ (decDigit d).toNat = 48 + d := by decide

theorem decRepr_ne_nil (n : Nat) : decRepr n ≠ [] := by
  rw [decRepr_eq]
  split
  · simp
  · simp

theorem decRepr_chars (n : Nat) :
    ∀ c ∈ decRepr n, c.isDigit = true ∧ c ≠ ',' ∧ c ≠ '*' := by
  induction n using Nat.strong_induction_on with
  | _ n ih =>
    rw [decRepr_eq]
    split
    · rename_i h
      intro c hc
      rw [List.mem_singleton] at hc
      subst hc
      obtain ⟨h1, h2, h3, _⟩ := decDigit_spec n h
      exact ⟨h1, h2, h3⟩
    · rename_i h
      intro c hc
      rcases List.mem_append.mp hc with hc1 | hc2
      · exact ih (n / 10) (Nat.div_lt_self (by omega) (by omega)) c hc1
      · rw [List.mem_singleton] at hc2
        subst hc2
        obtain ⟨h1, h2, h3, _⟩ := decDigit_spec (n % 10) (Nat.mod_lt _ (by omega))
        exact ⟨h1, h2, h3⟩

theorem fieldOk_decRepr (n : Nat) : fieldOk (decRepr n) := by
  intro c hc
  obtain ⟨_, h2, h3⟩ := decRepr_chars n c hc
  rintro (rfl | rfl)
  · exact h2 rfl
  · exact h3 rfl

theorem firstCharOk_decRepr_append (n : Nat) (l : List Char) :
    firstCharOk (decRepr n ++ l) := by
  constructor
  · simp [decRepr_ne_nil n]
  · cases hd : decRepr n with
    | nil => exact absurd hd (decRepr_ne_nil n)
    | cons c t =>
      have hc : c ∈ decRepr n := by rw [hd]; simp
      obtain ⟨_, _, h3⟩ := decRepr_chars n c hc
      simp only [hd, List.cons_append, List.head?_cons]
      intro hcontra
      exact h3 (by simpa using hcontra)

theorem decRepr_foldl (n : Nat) :
    (decRepr n).foldl (fun a c => 10 * a + (c.toNat - 48)) 0 = n := by
  induction n using Nat.strong_induction_on with
  | _ n ih =>
    rw [decRepr_eq]
    split
    · rename_i h
      obtain ⟨_, _, _, h4⟩ := decDigit_spec n h
      simp [h4]
    · rename_i h
      rw [List.foldl_append, ih (n / 10) (Nat.div_lt_self (by omega) (by omega))]
      obtain ⟨_, _, _, h4⟩ := decDigit_spec (n % 10) (Nat.mod_lt _ (by omega))
      simp only [List.foldl_cons, List.foldl_nil, h4]
      omega

theorem parseDec_decRepr (n : Nat) : parseDec (decRepr n) = n := by
  unfold parseDec
  rw [List.takeWhile_eq_self_iff.mpr ?_]
  · exact decRepr_foldl n
  · intro c hc
    exact (decRepr_chars n c hc).1

theorem decRepr_length_le (n : Nat) (h : n < 2 ^ 32) : (decRepr n).length ≤ 11 := by
  have hgen : ∀ k, ∀ m < 10 ^ k, (decRepr m).length ≤ k + 1 := by
    intro k
    induction k with
    | zero =>
      intro m hm
      interval_cases m
      decide
    | succ k ihk =>
      intro m hm
      rw [decRepr_eq]
      split
      · simp
      · rename_i h10
        have : m / 10 < 10 ^ k := by
          rw [Nat.div_lt_iff_lt_mul (by omega)]
          calc m < 10 ^ (k + 1) := hm
            _ = 10 ^ k * 10 := by ring
        have := ihk (m / 10) this
        simp only [List.length_append, List.length_singleton]
        omega
  have := hgen 10 n (by norm_num at h ⊢; omega)
  omega

set_option maxRecDepth 4000 in
theorem hexPair_byte : ∀ b < 256,
    16 * hexDigitVal (hexDigit (b / 16 % 16)) + hexDigitVal (hexDigit (b % 16)) = b := by
  decide

theorem hexDigit_ok : ∀ d < 16, hexDigit d ≠ ',' ∧ hexDigit d ≠ '*' := by decide

theorem hexPairs_byteToHex_cons (b : Nat) (rest : List Char) (hb : b < 256) :
    hexPairs (byteToHex b ++ rest) = b :: hexPairs rest := by
  show hexPairs (hexDigit (b / 16 % 16) :: hexDigit (b % 16) :: rest) = _
  conv_lhs => rw [hexPairs]
  rw [hexPair_byte b hb]

theorem hexPairs_bytesToHex (bs : List Nat) (h : ∀ b ∈ bs, b < 256) :
    hexPairs (bytesToHex bs) = bs := by
  induction bs with
  | nil => rfl
  | cons b t ih =>
    show hexPairs (byteToHex b ++ bytesToHex t) = _
    rw [hexPairs_byteToHex_cons b _ (h b (by simp)), ih (fun x hx => h x (by simp [hx]))]

theorem hexToBytes_bytesToHex (bs : List Nat) (cap : Nat)
    (h : ∀ b ∈ bs, b < 256) (hlen : bs.length ≤ cap) :
    hexToBytes (bytesToHex bs) cap = bs := by
  unfold hexToBytes
  rw [hexPairs_bytesToHex bs h, List.take_of_length_le hlen]

theorem bytesToHex_length (bs : List Nat) : (bytesToHex bs).length = 2 * bs.length := by
  induction bs with
  | nil => rfl
  | cons b t ih =>
    show (byteToHex b ++ bytesToHex t).length = _
    simp only [List.length_append, ih, byteToHex, List.length_cons]
    simp
    omega

theorem fieldOk_bytesToHex (bs : List Nat) (h : ∀ b ∈ bs, b < 256) :
    fieldOk (bytesToHex bs) := by
  induction bs with
  | nil => intro c hc; cases hc
  | cons b t ih =>
    intro c hc
    rw [bytesToHex, List.flatMap_cons] at hc
    rcases List.mem_append.mp hc with hc1 | hc2
    · have hb := h b (by simp)
      have h1 := hexDigit_ok (b / 16 % 16) (Nat.mod_lt _ (by omega))
      have h2 := hexDigit_ok (b % 16) (Nat.mod_lt _ (by omega))
      rcases (by simpa [byteToHex] using hc1 : c = hexDigit (b / 16 % 16) ∨ c = hexDigit (b % 16)) with rfl | rfl
      · rintro (h | h) <;> [exact h1.1 h; exact h1.2 h]
      · rintro (h | h) <;> [exact h2.1 h; exact h2.2 h]
    · exact ih (fun x hx => h x (by simp [hx])) c hc2

theorem fieldOk_nil : fieldOk [] := by
  intro c hc
  cases hc

theorem firstCharOk_append (l₁ l₂ : List Char) (h₁ : fieldOk l₁) (h₂ : firstCharOk l₂) :
    firstCharOk (l₁ ++ l₂) := by
  cases l₁ with
  | nil => simpa using h₂
  | cons c t =>
    refine ⟨by simp, ?_⟩
    simp only [List.cons_append, List.head?_cons]
    intro hc
    exact h₁ c (by simp) (Or.inr (by simpa using hc))

theorem firstCharOk_cons (c : Char) (l : List Char) (hc : c ≠ '*') :
    firstCharOk (c :: l) := by
  refine ⟨by simp, ?_⟩
  simp only [List.head?_cons]
  intro h
  exact hc (by simpa using h)

-- ============================================================================
-- cluster_work_t / cluster_share_t and their codec (cluster_protocol.c,
-- lines 154-243 and 419-585)
-- ============================================================================

/-- `cluster_work_t` (cluster.h, lines 90-111), with byte arrays as `Nat`
lists and C strings as `Char` lists. -/
structure Work where
  targetSlaveId : Nat
  jobId : Nat
  prevBlockHash : List Nat
  merkleRoot : List Nat
  version : Nat
  versionMask : Nat
  nbits : Nat
  ntime : Nat
  nonceStart : Nat
  nonceEnd : Nat
  extranonce2 : List Nat
  extranonce2Len : Nat
  cleanJobs : Bool
  poolDiff : Nat
  poolId : Nat
  blockHeight : Nat
  scriptsig : List Char
  networkDiffStr : List Char
deriving DecidableEq, Repr

/-- The fields of `cluster_share_t` that travel in a `CLSHR` frame. -/
structure Share where
  slaveId : Nat
  jobId : Nat
  nonce : Nat
  ntime : Nat
  version : Nat
  extranonce2 : List Nat
  extranonce2Len : Nat
deriving DecidableEq, Repr

/-- The core `snprintf` of `cluster_protocol_encode_work` (its format string
`"$%s,%u,%lu,%s,%s,%lu,%lu,%lu,%lu,%lu,%lu,%s,%u,%d,%lu"`). -/
def encodeWorkCore (w : Work) : List Char :=
  "$CLWRK,".data
  ++ decRepr w.targetSlaveId
  ++ [','] ++ decRepr w.jobId
  ++ [','] ++ bytesToHex w.prevBlockHash
  ++ [','] ++ bytesToHex w.merkleRoot
  ++ [','] ++ decRepr w.version
  ++ [','] ++ decRepr w.versionMask
  ++ [','] ++ decRepr w.nbits
  ++ [','] ++ decRepr w.ntime
  ++ [','] ++ decRepr w.nonceStart
  ++ [','] ++ decRepr w.nonceEnd
  ++ [','] ++ bytesToHex (w.extranonce2.take w.extranonce2Len)
  ++ [','] ++ decRepr w.extranonce2Len
  ++ [','] ++ (if w.cleanJobs then ['1'] else ['0'])
  ++ [','] ++ decRepr w.poolDiff

/-- `finalize_message`: append `*`, the two uppercase hex digits of the XOR
checksum over everything after `$`, and CRLF. -/
def finalizeMessage (payload : List Char) : List Char :=
  payload ++ ['*'] ++ byteToHexUpper (calcChecksum (payload.drop 1)) ++ "\r\n".data

/-- `cluster_protocol_encode_work`: refuse buffers under 200 bytes; refuse a
core payload that leaves fewer than 10 spare bytes; append the three display
fields only when more than 60 bytes remain and `block_height > 0` (and the
extra text fits); finalize with the checksum trailer. -/
def encodeWork (w : Work) (bufferLen : Nat) : Option (List Char) :=
  if bufferLen < 200 then none
  else
    let core := encodeWorkCore w
    if bufferLen - 10 ≤ core.length then none
    else
      let remaining := bufferLen - core.length - 10
      let extra := [','] ++ decRepr w.blockHeight
        ++ [','] ++ (if w.scriptsig = [] then "-".data else w.scriptsig)
        ++ [','] ++ (if w.networkDiffStr = [] then "-".data else w.networkDiffStr)
      let payload :=
        if 60 < remaining ∧ 0 < w.blockHeight ∧ extra.length < remaining then core ++ extra
        else core
      some (finalizeMessage payload)

/-- `cluster_protocol_encode_share` (format
`"$%s,%u,%lu,%lu,%lu,%lu,%s,%u"`). -/
def encodeShareCore (sh : Share) : List Char :=
  "$CLSHR,".data
  ++ decRepr sh.slaveId
  ++ [','] ++ decRepr sh.jobId
  ++ [','] ++ decRepr sh.nonce
  ++ [','] ++ decRepr sh.ntime
  ++ [','] ++ decRepr sh.version
  ++ [','] ++ bytesToHex (sh.extranonce2.take sh.extranonce2Len)
  ++ [','] ++ decRepr sh.extranonce2Len

def encodeShare (sh : Share) (bufferLen : Nat) : Option (List Char) :=
  if bufferLen < 100 then none
  else
    let core := encodeShareCore sh
    if bufferLen - 10 ≤ core.length then none
    else some (finalizeMessage core)

/-- The optional tail of `cluster_protocol_decode_work` (block height,
scriptsig, network difficulty — each read only while the cursor is
non-NULL; `"-"` means "absent"). -/
def decodeWorkTail (cur : Option (List Char)) : Nat × List Char × List Char :=
  match cur with
  | none => (0, [], [])
  | some _ =>
    let r15 := readField 128 cur
    let blockHeight := parseDec r15.1 % 2 ^ 32
    match r15.2 with
    | none => (blockHeight, [], [])
    | some _ =>
      let r16 := readField 128 r15.2
      let scriptsig := if r16.1 = "-".data then [] else r16.1.take 31
      match r16.2 with
      | none => (blockHeight, scriptsig, [])
      | some _ =>
        let r17 := readField 128 r16.2
        (blockHeight, scriptsig, if r17.1 = "-".data then [] else r17.1.take 15)

/-- `cluster_protocol_decode_work` on the payload that follows `"$CLWRK,"`
(the decoder stops at `'*'`, so the checksum trailer may be present).  Each
`readField` models one `get_next_field` into `char field[128]`; a `none`
cursor is the C `NULL`, and the `none`-cursor reads at the third and
thirteenth fields mirror the C calls made without a NULL check (in C they
leave the field buffer stale; both models then fail or default identically
on the inputs reachable from the encoder).  `% 256` / `% 2 ^ 32` are the
`uint8_t` / `uint32_t` stores and `512` the `pool_diff` legacy fallback. -/
def decodeWork (payload : List Char) : Option Work :=
  let r1 := readField 128 (some payload)
  if r1.2 = none ∧ r1.1.length = 0 then none
  else if r1.2 = none then none
  else
  let r2 := readField 128 r1.2
  let r3 := readField 128 r2.2
  if r3.1.length ≠ 64 then none
  else if r3.2 = none then none
  else
  let r4 := readField 128 r3.2
  if r4.1.length ≠ 64 then none
  else if r4.2 = none then none
  else
  let r5 := readField 128 r4.2
  if r5.2 = none then none
  else
  let r6 := readField 128 r5.2
  if r6.2 = none then none
  else
  let r7 := readField 128 r6.2
  if r7.2 = none then none
  else
  let r8 := readField 128 r7.2
  if r8.2 = none then none
  else
  let r9 := readField 128 r8.2
  if r9.2 = none then none
  else
  let r10 := readField 128 r9.2
  if r10.2 = none then none
  else
  let r11 := readField 128 r10.2
  if r11.2 = none then none
  else
  let r12 := readField 128 r11.2
  let r13 := readField 128 r12.2
  let pd : Nat × Option (List Char) :=
    match r13.2 with
    | none => (512, none)
    | some _ => (parseDec (readField 128 r13.2).1 % 2 ^ 32, (readField 128 r13.2).2)
  some {
    targetSlaveId := parseDec r1.1 % 256
    jobId := parseDec r2.1 % 2 ^ 32
    prevBlockHash := hexToBytes r3.1 32
    merkleRoot := hexToBytes r4.1 32
    version := parseDec r5.1 % 2 ^ 32
    versionMask := parseDec r6.1 % 2 ^ 32
    nbits := parseDec r7.1 % 2 ^ 32
    ntime := parseDec r8.1 % 2 ^ 32
    nonceStart := parseDec r9.1 % 2 ^ 32
    nonceEnd := parseDec r10.1 % 2 ^ 32
    extranonce2 := hexToBytes r11.1 8
    extranonce2Len := (hexToBytes r11.1 8).length
    cleanJobs := r13.1.head? == some '1'
    poolDiff := pd.1
    poolId := 0
    blockHeight := (decodeWorkTail pd.2).1
    scriptsig := (decodeWorkTail pd.2).2.1
    networkDiffStr := (decodeWorkTail pd.2).2.2 }

/-- `cluster_protocol_decode_share` on the payload that follows `"$CLSHR,"`
(the trailing `extranonce2_len` field is read in C and discarded). -/
def decodeShare (payload : List Char) : Option Share :=
  let r1 := readField 32 (some payload)
  if r1.2 = none then none
  else
  let r2 := readField 32 r1.2
  if r2.2 = none then none
  else
  let r3 := readField 32 r2.2
  if r3.2 = none then none
  else
  let r4 := readField 32 r3.2
  if r4.2 = none then none
  else
  let r5 := readField 32 r4.2
  if r5.2 = none then none
  else
  let r6 := readField 32 r5.2
  some {
    slaveId := parseDec r1.1 % 256
    jobId := parseDec r2.1 % 2 ^ 32
    nonce := parseDec r3.1 % 2 ^ 32
    ntime := parseDec r4.1 % 2 ^ 32
    version := parseDec r5.1 % 2 ^ 32
    extranonce2 := hexToBytes r6.1 8
    extranonce2Len := (hexToBytes r6.1 8).length }

theorem firstCharOk_append_of_ne_nil (l₁ l₂ : List Char)
    (h : fieldOk l₁) (hne : l₁ ≠ []) : firstCharOk (l₁ ++ l₂) := by
  cases l₁ with
  | nil => exact absurd rfl hne
  | cons c tl =>
    refine ⟨by simp, ?_⟩
    simp only [List.cons_append, List.head?_cons]
    intro hc
    exact h c (by simp) (Or.inr (by simpa using hc))

set_option maxHeartbeats 1000000 in
theorem decodeShare_encodeShare (sh : Share) (bufferLen : Nat) (frame : List Char)
    (hsid : sh.slaveId < 256) (hjid : sh.jobId < 2 ^ 32) (hnon : sh.nonce < 2 ^ 32)
    (hnti : sh.ntime < 2 ^ 32) (hver : sh.version < 2 ^ 32)
    (hlen : sh.extranonce2.length = sh.extranonce2Len) (hlen8 : sh.extranonce2Len ≤ 8)
    (hbytes : ∀ b ∈ sh.extranonce2, b < 256)
    (henc : encodeShare sh bufferLen = some frame) :
    decodeShare (frame.drop 7) = some ⟨sh.slaveId, sh.jobId, sh.nonce, sh.ntime,
      sh.version, sh.extranonce2, sh.extranonce2Len⟩ := by
  have h256 : (256 : Nat) < 2 ^ 32 := by norm_num
  have hsid32 : sh.slaveId < 2 ^ 32 := lt_trans hsid h256
  have htake : sh.extranonce2.take sh.extranonce2Len = sh.extranonce2 := by
    rw [← hlen]
    exact List.take_length _
  have hlen6 : (bytesToHex sh.extranonce2).length ≤ 31 := by
    rw [bytesToHex_length]
    omega
  have henx : hexToBytes (bytesToHex sh.extranonce2) 8 = sh.extranonce2 :=
    hexToBytes_bytesToHex _ _ hbytes (by omega)
  simp only [encodeShare] at henc
  split_ifs at henc with hb1 hb2
  have hframe : frame = finalizeMessage (encodeShareCore sh) := (Option.some.inj henc).symm
  have key : ∀ u v : List Char, (encodeShareCore sh ++ ['*'] ++ u ++ v).drop 7 =
      decRepr sh.slaveId ++ ',' :: (decRepr sh.jobId ++ ',' :: (decRepr sh.nonce ++ ',' :: (decRepr sh.ntime ++ ',' :: (decRepr sh.version ++ ',' :: (bytesToHex sh.extranonce2 ++ ',' :: (decRepr sh.extranonce2Len ++ '*' :: (u ++ v))))))) := by
    intro u v
    show ((("$CLSHR,".data
      ++ decRepr sh.slaveId
      ++ [','] ++ decRepr sh.jobId
      ++ [','] ++ decRepr sh.nonce
      ++ [','] ++ decRepr sh.ntime
      ++ [','] ++ decRepr sh.version
      ++ [','] ++ bytesToHex (sh.extranonce2.take sh.extranonce2Len)
      ++ [','] ++ decRepr sh.extranonce2Len) ++ ['*'] ++ u ++ v).drop 7 = _)
    rw [htake]
    simp only [List.append_assoc]
    rw [show (7 : Nat) = ("$CLSHR,".data).length from rfl, List.drop_left "$CLSHR,".data]
    simp [List.append_assoc]
  have hdrop : (finalizeMessage (encodeShareCore sh)).drop 7 =
      decRepr sh.slaveId ++ ',' :: (decRepr sh.jobId ++ ',' :: (decRepr sh.nonce ++ ',' :: (decRepr sh.ntime ++ ',' :: (decRepr sh.version ++ ',' :: (bytesToHex sh.extranonce2 ++ ',' :: (decRepr sh.extranonce2Len ++ '*' :: (byteToHexUpper (calcChecksum ((encodeShareCore sh).drop 1)) ++ "\r\n".data))))))) :=
    key (byteToHexUpper (calcChecksum ((encodeShareCore sh).drop 1))) "\r\n".data
  rw [hframe, hdrop]
  have s1 : readField 32 (some (decRepr sh.slaveId ++ ',' :: (decRepr sh.jobId ++ ',' :: (decRepr sh.nonce ++ ',' :: (decRepr sh.ntime ++ ',' :: (decRepr sh.version ++ ',' :: (bytesToHex sh.extranonce2 ++ ',' :: (decRepr sh.extranonce2Len ++ '*' :: (byteToHexUpper (calcChecksum ((encodeShareCore sh).drop 1)) ++ "\r\n".data))))))))) = (decRepr sh.slaveId, some (decRepr sh.jobId ++ ',' :: (decRepr sh.nonce ++ ',' :: (decRepr sh.ntime ++ ',' :: (decRepr sh.version ++ ',' :: (bytesToHex sh.extranonce2 ++ ',' :: (decRepr sh.extranonce2Len ++ '*' :: (byteToHexUpper (calcChecksum ((encodeShareCore sh).drop 1)) ++ "\r\n".data)))))))) :=
    readField_sep 32 _ _ (fieldOk_decRepr _) (by have := decRepr_length_le sh.slaveId hsid32; omega) (firstCharOk_decRepr_append _ _)
  have s2 : readField 32 (some (decRepr sh.jobId ++ ',' :: (decRepr sh.nonce ++ ',' :: (decRepr sh.ntime ++ ',' :: (decRepr sh.version ++ ',' :: (bytesToHex sh.extranonce2 ++ ',' :: (decRepr sh.extranonce2Len ++ '*' :: (byteToHexUpper (calcChecksum ((encodeShareCore sh).drop 1)) ++ "\r\n".data)))))))) = (decRepr sh.jobId, some (decRepr sh.nonce ++ ',' :: (decRepr sh.ntime ++ ',' :: (decRepr sh.version ++ ',' :: (bytesToHex sh.extranonce2 ++ ',' :: (decRepr sh.extranonce2Len ++ '*' :: (byteToHexUpper (calcChecksum ((encodeShareCore sh).drop 1)) ++ "\r\n".data))))))) :=
    readField_sep 32 _ _ (fieldOk_decRepr _) (by have := decRepr_length_le sh.jobId hjid; omega) (firstCharOk_decRepr_append _ _)
  have s3 : readField 32 (some (decRepr sh.nonce ++ ',' :: (decRepr sh.ntime ++ ',' :: (decRepr sh.version ++ ',' :: (bytesToHex sh.extranonce2 ++ ',' :: (decRepr sh.extranonce2Len ++ '*' :: (byteToHexUpper (calcChecksum ((encodeShareCore sh).drop 1)) ++ "\r\n".data))))))) = (decRepr sh.nonce, some (decRepr sh.ntime ++ ',' :: (decRepr sh.version ++ ',' :: (bytesToHex sh.extranonce2 ++ ',' :: (decRepr sh.extranonce2Len ++ '*' :: (byteToHexUpper (calcChecksum ((encodeShareCore sh).drop 1)) ++ "\r\n".data)))))) :=
    readField_sep 32 _ _ (fieldOk_decRepr _) (by have := decRepr_length_le sh.nonce hnon; omega) (firstCharOk_decRepr_append _ _)
  have s4 : readField 32 (some (decRepr sh.ntime ++ ',' :: (decRepr sh.version ++ ',' :: (bytesToHex sh.extranonce2 ++ ',' :: (decRepr sh.extranonce2Len ++ '*' :: (byteToHexUpper (calcChecksum ((encodeShareCore sh).drop 1)) ++ "\r\n".data)))))) = (decRepr sh.ntime, some (decRepr sh.version ++ ',' :: (bytesToHex sh.extranonce2 ++ ',' :: (decRepr sh.extranonce2Len ++ '*' :: (byteToHexUpper (calcChecksum ((encodeShareCore sh).drop 1)) ++ "\r\n".data))))) :=
    readField_sep 32 _ _ (fieldOk_decRepr _) (by have := decRepr_length_le sh.ntime hnti; omega) (firstCharOk_decRepr_append _ _)
  have s5 : readField 32 (some (decRepr sh.version ++ ',' :: (bytesToHex sh.extranonce2 ++ ',' :: (decRepr sh.extranonce2Len ++ '*' :: (byteToHexUpper (calcChecksum ((encodeShareCore sh).drop 1)) ++ "\r\n".data))))) = (decRepr sh.version, some (bytesToHex sh.extranonce2 ++ ',' :: (decRepr sh.extranonce2Len ++ '*' :: (byteToHexUpper (calcChecksum ((encodeShareCore sh).drop 1)) ++ "\r\n".data)))) :=
    readField_sep 32 _ _ (fieldOk_decRepr _) (by have := decRepr_length_le sh.version hver; omega) (firstCharOk_append _ _ (fieldOk_bytesToHex _ hbytes) (firstCharOk_cons ',' _ (by decide)))
  have s6 : readField 32 (some (bytesToHex sh.extranonce2 ++ ',' :: (decRepr sh.extranonce2Len ++ '*' :: (byteToHexUpper (calcChecksum ((encodeShareCore sh).drop 1)) ++ "\r\n".data)))) = (bytesToHex sh.extranonce2, some (decRepr sh.extranonce2Len ++ '*' :: (byteToHexUpper (calcChecksum ((encodeShareCore sh).drop 1)) ++ "\r\n".data))) :=
    readField_sep 32 _ _ (fieldOk_bytesToHex _ hbytes) (by omega) (firstCharOk_decRepr_append _ _)
  simp only [decodeShare, s1, s2, s3, s4, s5, s6]
  simp [parseDec_decRepr, henx, hlen, Nat.mod_eq_of_lt hsid, Nat.mod_eq_of_lt hjid,
    Nat.mod_eq_of_lt hnon, Nat.mod_eq_of_lt hnti, Nat.mod_eq_of_lt hver]
  omega

set_option maxHeartbeats 1600000 in
theorem decodeWork_encodeWork (w : Work) (bufferLen : Nat) (frame : List Char)
    (htar : w.targetSlaveId < 256)
    (hjid : w.jobId < 2 ^ 32) (hver : w.version < 2 ^ 32) (hmask : w.versionMask < 2 ^ 32)
    (hnbits : w.nbits < 2 ^ 32) (hntime : w.ntime < 2 ^ 32)
    (hstart : w.nonceStart < 2 ^ 32) (hend : w.nonceEnd < 2 ^ 32)
    (hdiff : w.poolDiff < 2 ^ 32) (hbh : w.blockHeight < 2 ^ 32)
    (hprev : w.prevBlockHash.length = 32) (hprevb : ∀ b ∈ w.prevBlockHash, b < 256)
    (hmerk : w.merkleRoot.length = 32) (hmerkb : ∀ b ∈ w.merkleRoot, b < 256)
    (hlen : w.extranonce2.length = w.extranonce2Len) (hlen8 : w.extranonce2Len ≤ 8)
    (hbytes : ∀ b ∈ w.extranonce2, b < 256)
    (hss : fieldOk w.scriptsig) (hsslen : w.scriptsig.length ≤ 127)
    (hnd : fieldOk w.networkDiffStr) (hndlen : w.networkDiffStr.length ≤ 127)
    (henc : encodeWork w bufferLen = some frame) :
    ∃ w' : Work, decodeWork (frame.drop 7) = some w'
      ∧ w'.targetSlaveId = w.targetSlaveId ∧ w'.jobId = w.jobId
      ∧ w'.prevBlockHash = w.prevBlockHash ∧ w'.merkleRoot = w.merkleRoot
      ∧ w'.version = w.version ∧ w'.versionMask = w.versionMask
      ∧ w'.nbits = w.nbits ∧ w'.ntime = w.ntime
      ∧ w'.nonceStart = w.nonceStart ∧ w'.nonceEnd = w.nonceEnd
      ∧ w'.extranonce2 = w.extranonce2 ∧ w'.extranonce2Len = w.extranonce2Len
      ∧ w'.cleanJobs = w.cleanJobs ∧ w'.poolDiff = w.poolDiff := by
  have h256 : (256 : Nat) < 2 ^ 32 := by norm_num
  have htar32 : w.targetSlaveId < 2 ^ 32 := lt_trans htar h256
  have htake : w.extranonce2.take w.extranonce2Len = w.extranonce2 := by
    rw [← hlen]
    exact List.take_length _
  have henx : hexToBytes (bytesToHex w.extranonce2) 8 = w.extranonce2 :=
    hexToBytes_bytesToHex _ _ hbytes (by omega)
  have hprevx : hexToBytes (bytesToHex w.prevBlockHash) 32 = w.prevBlockHash :=
    hexToBytes_bytesToHex _ _ hprevb (by omega)
  have hmerkx : hexToBytes (bytesToHex w.merkleRoot) 32 = w.merkleRoot :=
    hexToBytes_bytesToHex _ _ hmerkb (by omega)
  have hprev64 : (bytesToHex w.prevBlockHash).length = 64 := by
    rw [bytesToHex_length, hprev]
  have hmerk64 : (bytesToHex w.merkleRoot).length = 64 := by
    rw [bytesToHex_length, hmerk]
  have hf13 : fieldOk (if w.cleanJobs then ['1'] else ['0']) := by
    cases hcj : w.cleanJobs <;> decide
  have hf13len : (if w.cleanJobs then ['1'] else ['0']).length ≤ 127 := by
    cases hcj : w.cleanJobs <;> decide
  have hclean : ((if w.cleanJobs then ['1'] else ['0']).head? == some '1') = w.cleanJobs := by
    cases hcj : w.cleanJobs <;> decide
  have hfss : fieldOk (if w.scriptsig = [] then "-".data else w.scriptsig) := by
    by_cases hc : w.scriptsig = []
    · rw [if_pos hc]; decide
    · rw [if_neg hc]; exact hss
  have hfsslen : (if w.scriptsig = [] then "-".data else w.scriptsig).length ≤ 127 := by
    by_cases hc : w.scriptsig = []
    · rw [if_pos hc]; decide
    · rw [if_neg hc]; exact hsslen
  have hfnd : fieldOk (if w.networkDiffStr = [] then "-".data else w.networkDiffStr) := by
    by_cases hc : w.networkDiffStr = []
    · rw [if_pos hc]; decide
    · rw [if_neg hc]; exact hnd
  have hfndlen : (if w.networkDiffStr = [] then "-".data else w.networkDiffStr).length ≤ 127 := by
    by_cases hc : w.networkDiffStr = []
    · rw [if_pos hc]; decide
    · rw [if_neg hc]; exact hndlen
  have hndne : (if w.networkDiffStr = [] then "-".data else w.networkDiffStr) ≠ [] := by
    by_cases hc : w.networkDiffStr = []
    · rw [if_pos hc]; decide
    · rw [if_neg hc]; exact hc
  simp only [encodeWork] at henc
  by_cases hb1 : bufferLen < 200
  · rw [if_pos hb1] at henc
    exact Option.noConfusion henc
  rw [if_neg hb1] at henc
  by_cases hb2 : bufferLen - 10 ≤ (encodeWorkCore w).length
  · rw [if_pos hb2] at henc
    exact Option.noConfusion henc
  rw [if_neg hb2] at henc
  by_cases hb3 : 60 < bufferLen - (encodeWorkCore w).length - 10 ∧ 0 < w.blockHeight ∧
      ([','] ++ decRepr w.blockHeight ++ [','] ++ (if w.scriptsig = [] then "-".data else w.scriptsig) ++ [','] ++ (if w.networkDiffStr = [] then "-".data else w.networkDiffStr)).length < bufferLen - (encodeWorkCore w).length - 10
  · rw [if_pos hb3] at henc
    have hframe : frame = finalizeMessage (encodeWorkCore w ++ ([','] ++ decRepr w.blockHeight ++ [','] ++ (if w.scriptsig = [] then "-".data else w.scriptsig) ++ [','] ++ (if w.networkDiffStr = [] then "-".data else w.networkDiffStr))) :=
      (Option.some.inj henc).symm
    have key : ∀ u v : List Char,
        ((encodeWorkCore w ++ ([','] ++ decRepr w.blockHeight ++ [','] ++ (if w.scriptsig = [] then "-".data else w.scriptsig) ++ [','] ++ (if w.networkDiffStr = [] then "-".data else w.networkDiffStr))) ++ ['*'] ++ u ++ v).drop 7 =
        decRepr w.targetSlaveId ++ ',' :: (decRepr w.jobId ++ ',' :: (bytesToHex w.prevBlockHash ++ ',' :: (bytesToHex w.merkleRoot ++ ',' :: (decRepr w.version ++ ',' :: (decRepr w.versionMask ++ ',' :: (decRepr w.nbits ++ ',' :: (decRepr w.ntime ++ ',' :: (decRepr w.nonceStart ++ ',' :: (decRepr w.nonceEnd ++ ',' :: (bytesToHex w.extranonce2 ++ ',' :: (decRepr w.extranonce2Len ++ ',' :: ((if w.cleanJobs then ['1'] else ['0']) ++ ',' :: (decRepr w.poolDiff ++ ',' :: (decRepr w.blockHeight ++ ',' :: ((if w.scriptsig = [] then "-".data else w.scriptsig) ++ ',' :: ((if w.networkDiffStr = [] then "-".data else w.networkDiffStr) ++ '*' :: (u ++ v))))))))))))))))) := by
      intro u v
      show (((("$CLWRK,".data
        ++ decRepr w.targetSlaveId
        ++ [','] ++ decRepr w.jobId
        ++ [','] ++ bytesToHex w.prevBlockHash
        ++ [','] ++ bytesToHex w.merkleRoot
        ++ [','] ++ decRepr w.version
        ++ [','] ++ decRepr w.versionMask
        ++ [','] ++ decRepr w.nbits
        ++ [','] ++ decRepr w.ntime
        ++ [','] ++ decRepr w.nonceStart
        ++ [','] ++ decRepr w.nonceEnd
        ++ [','] ++ bytesToHex (w.extranonce2.take w.extranonce2Len)
        ++ [','] ++ decRepr w.extranonce2Len
        ++ [','] ++ (if w.cleanJobs then ['1'] else ['0'])
        ++ [','] ++ decRepr w.poolDiff)
        ++ ([','] ++ decRepr w.blockHeight
        ++ [','] ++ (if w.scriptsig = [] then "-".data else w.scriptsig)
        ++ [','] ++ (if w.networkDiffStr = [] then "-".data else w.networkDiffStr)))
        ++ ['*'] ++ u ++ v).drop 7 = _)
      rw [htake]
      simp only [List.append_assoc]
      rw [show (7 : Nat) = ("$CLWRK,".data).length from rfl, List.drop_left "$CLWRK,".data]
      simp [List.append_assoc]
    have hdrop : (finalizeMessage (encodeWorkCore w ++ ([','] ++ decRepr w.blockHeight ++ [','] ++ (if w.scriptsig = [] then "-".data else w.scriptsig) ++ [','] ++ (if w.networkDiffStr = [] then "-".data else w.networkDiffStr)))).drop 7 =
        decRepr w.targetSlaveId ++ ',' :: (decRepr w.jobId ++ ',' :: (bytesToHex w.prevBlockHash ++ ',' :: (bytesToHex w.merkleRoot ++ ',' :: (decRepr w.version ++ ',' :: (decRepr w.versionMask ++ ',' :: (decRepr w.nbits ++ ',' :: (decRepr w.ntime ++ ',' :: (decRepr w.nonceStart ++ ',' :: (decRepr w.nonceEnd ++ ',' :: (bytesToHex w.extranonce2 ++ ',' :: (decRepr w.extranonce2Len ++ ',' :: ((if w.cleanJobs then ['1'] else ['0']) ++ ',' :: (decRepr w.poolDiff ++ ',' :: (decRepr w.blockHeight ++ ',' :: ((if w.scriptsig = [] then "-".data else w.scriptsig) ++ ',' :: ((if w.networkDiffStr = [] then "-".data else w.networkDiffStr) ++ '*' :: (byteToHexUpper (calcChecksum ((encodeWorkCore w ++ ([','] ++ decRepr w.blockHeight ++ [','] ++ (if w.scriptsig = [] then "-".data else w.scriptsig) ++ [','] ++ (if w.networkDiffStr = [] then "-".data else w.networkDiffStr))).drop 1)) ++ "\r\n".data))))))))))))))))) :=
      key (byteToHexUpper (calcChecksum ((encodeWorkCore w ++ ([','] ++ decRepr w.blockHeight ++ [','] ++ (if w.scriptsig = [] then "-".data else w.scriptsig) ++ [','] ++ (if w.networkDiffStr = [] then "-".data else w.networkDiffStr))).drop 1))) "\r\n".data
    rw [hframe, hdrop]
    have s1 : readField 128 (some (decRepr w.targetSlaveId ++ ',' :: (decRepr w.jobId ++ ',' :: (bytesToHex w.prevBlockHash ++ ',' :: (bytesToHex w.merkleRoot ++ ',' :: (decRepr w.version ++ ',' :: (decRepr w.versionMask ++ ',' :: (decRepr w.nbits ++ ',' :: (decRepr w.ntime ++ ',' :: (decRepr w.nonceStart ++ ',' :: (decRepr w.nonceEnd ++ ',' :: (bytesToHex w.extranonce2 ++ ',' :: (decRepr w.extranonce2Len ++ ',' :: ((if w.cleanJobs then ['1'] else ['0']) ++ ',' :: (decRepr w.poolDiff ++ ',' :: (decRepr w.blockHeight ++ ',' :: ((if w.scriptsig = [] then "-".data else w.scriptsig) ++ ',' :: ((if w.networkDiffStr = [] then "-".data else w.networkDiffStr) ++ '*' :: (byteToHexUpper (calcChecksum ((encodeWorkCore w ++ ([','] ++ decRepr w.blockHeight ++ [','] ++ (if w.scriptsig = [] then "-".data else w.scriptsig) ++ [','] ++ (if w.networkDiffStr = [] then "-".data else w.networkDiffStr))).drop 1)) ++ "\r\n".data))))))))))))))))))) = (decRepr w.targetSlaveId, some (decRepr w.jobId ++ ',' :: (bytesToHex w.prevBlockHash ++ ',' :: (bytesToHex w.merkleRoot ++ ',' :: (decRepr w.version ++ ',' :: (decRepr w.versionMask ++ ',' :: (decRepr w.nbits ++ ',' :: (decRepr w.ntime ++ ',' :: (decRepr w.nonceStart ++ ',' :: (decRepr w.nonceEnd ++ ',' :: (bytesToHex w.extranonce2 ++ ',' :: (decRepr w.extranonce2Len ++ ',' :: ((if w.cleanJobs then ['1'] else ['0']) ++ ',' :: (decRepr w.poolDiff ++ ',' :: (decRepr w.blockHeight ++ ',' :: ((if w.scriptsig = [] then "-".data else w.scriptsig) ++ ',' :: ((if w.networkDiffStr = [] then "-".data else w.networkDiffStr) ++ '*' :: (byteToHexUpper (calcChecksum ((encodeWorkCore w ++ ([','] ++ decRepr w.blockHeight ++ [','] ++ (if w.scriptsig = [] then "-".data else w.scriptsig) ++ [','] ++ (if w.networkDiffStr = [] then "-".data else w.networkDiffStr))).drop 1)) ++ "\r\n".data)))))))))))))))))) :=
      readField_sep 128 _ _ (fieldOk_decRepr _) (by have := decRepr_length_le w.targetSlaveId htar32; omega) (firstCharOk_decRepr_append _ _)
    have s2 : readField 128 (some (decRepr w.jobId ++ ',' :: (bytesToHex w.prevBlockHash ++ ',' :: (bytesToHex w.merkleRoot ++ ',' :: (decRepr w.version ++ ',' :: (decRepr w.versionMask ++ ',' :: (decRepr w.nbits ++ ',' :: (decRepr w.ntime ++ ',' :: (decRepr w.nonceStart ++ ',' :: (decRepr w.nonceEnd ++ ',' :: (bytesToHex w.extranonce2 ++ ',' :: (decRepr w.extranonce2Len ++ ',' :: ((if w.cleanJobs then ['1'] else ['0']) ++ ',' :: (decRepr w.poolDiff ++ ',' :: (decRepr w.blockHeight ++ ',' :: ((if w.scriptsig = [] then "-".data else w.scriptsig) ++ ',' :: ((if w.networkDiffStr = [] then "-".data else w.networkDiffStr) ++ '*' :: (byteToHexUpper (calcChecksum ((encodeWorkCore w ++ ([','] ++ decRepr w.blockHeight ++ [','] ++ (if w.scriptsig = [] then "-".data else w.scriptsig) ++ [','] ++ (if w.networkDiffStr = [] then "-".data else w.networkDiffStr))).drop 1)) ++ "\r\n".data)))))))))))))))))) = (decRepr w.jobId, some (bytesToHex w.prevBlockHash ++ ',' :: (bytesToHex w.merkleRoot ++ ',' :: (decRepr w.version ++ ',' :: (decRepr w.versionMask ++ ',' :: (decRepr w.nbits ++ ',' :: (decRepr w.ntime ++ ',' :: (decRepr w.nonceStart ++ ',' :: (decRepr w.nonceEnd ++ ',' :: (bytesToHex w.extranonce2 ++ ',' :: (decRepr w.extranonce2Len ++ ',' :: ((if w.cleanJobs then ['1'] else ['0']) ++ ',' :: (decRepr w.poolDiff ++ ',' :: (decRepr w.blockHeight ++ ',' :: ((if w.scriptsig = [] then "-".data else w.scriptsig) ++ ',' :: ((if w.networkDiffStr = [] then "-".data else w.networkDiffStr) ++ '*' :: (byteToHexUpper (calcChecksum ((encodeWorkCore w ++ ([','] ++ decRepr w.blockHeight ++ [','] ++ (if w.scriptsig = [] then "-".data else w.scriptsig) ++ [','] ++ (if w.networkDiffStr = [] then "-".data else w.networkDiffStr))).drop 1)) ++ "\r\n".data))))))))))))))))) :=
      readField_sep 128 _ _ (fieldOk_decRepr _) (by have := decRepr_length_le w.jobId hjid; omega) (firstCharOk_append _ _ (fieldOk_bytesToHex _ hprevb) (firstCharOk_cons ',' _ (by decide)))
    have s3 : readField 128 (some (bytesToHex w.prevBlockHash ++ ',' :: (bytesToHex w.merkleRoot ++ ',' :: (decRepr w.version ++ ',' :: (decRepr w.versionMask ++ ',' :: (decRepr w.nbits ++ ',' :: (decRepr w.ntime ++ ',' :: (decRepr w.nonceStart ++ ',' :: (decRepr w.nonceEnd ++ ',' :: (bytesToHex w.extranonce2 ++ ',' :: (decRepr w.extranonce2Len ++ ',' :: ((if w.cleanJobs then ['1'] else ['0']) ++ ',' :: (decRepr w.poolDiff ++ ',' :: (decRepr w.blockHeight ++ ',' :: ((if w.scriptsig = [] then "-".data else w.scriptsig) ++ ',' :: ((if w.networkDiffStr = [] then "-".data else w.networkDiffStr) ++ '*' :: (byteToHexUpper (calcChecksum ((encodeWorkCore w ++ ([','] ++ decRepr w.blockHeight ++ [','] ++ (if w.scriptsig = [] then "-".data else w.scriptsig) ++ [','] ++ (if w.networkDiffStr = [] then "-".data else w.networkDiffStr))).drop 1)) ++ "\r\n".data))))))))))))))))) = (bytesToHex w.prevBlockHash, some (bytesToHex w.merkleRoot ++ ',' :: (decRepr w.version ++ ',' :: (decRepr w.versionMask ++ ',' :: (decRepr w.nbits ++ ',' :: (decRepr w.ntime ++ ',' :: (decRepr w.nonceStart ++ ',' :: (decRepr w.nonceEnd ++ ',' :: (bytesToHex w.extranonce2 ++ ',' :: (decRepr w.extranonce2Len ++ ',' :: ((if w.cleanJobs then ['1'] else ['0']) ++ ',' :: (decRepr w.poolDiff ++ ',' :: (decRepr w.blockHeight ++ ',' :: ((if w.scriptsig = [] then "-".data else w.scriptsig) ++ ',' :: ((if w.networkDiffStr = [] then "-".data else w.networkDiffStr) ++ '*' :: (byteToHexUpper (calcChecksum ((encodeWorkCore w ++ ([','] ++ decRepr w.blockHeight ++ [','] ++ (if w.scriptsig = [] then "-".data else w.scriptsig) ++ [','] ++ (if w.networkDiffStr = [] then "-".data else w.networkDiffStr))).drop 1)) ++ "\r\n".data)))))))))))))))) :=
      readField_sep 128 _ _ (fieldOk_bytesToHex _ hprevb) (by rw [bytesToHex_length]; omega) (firstCharOk_append _ _ (fieldOk_bytesToHex _ hmerkb) (firstCharOk_cons ',' _ (by decide)))
    have s4 : readField 128 (some (bytesToHex w.merkleRoot ++ ',' :: (decRepr w.version ++ ',' :: (decRepr w.versionMask ++ ',' :: (decRepr w.nbits ++ ',' :: (decRepr w.ntime ++ ',' :: (decRepr w.nonceStart ++ ',' :: (decRepr w.nonceEnd ++ ',' :: (bytesToHex w.extranonce2 ++ ',' :: (decRepr w.extranonce2Len ++ ',' :: ((if w.cleanJobs then ['1'] else ['0']) ++ ',' :: (decRepr w.poolDiff ++ ',' :: (decRepr w.blockHeight ++ ',' :: ((if w.scriptsig = [] then "-".data else w.scriptsig) ++ ',' :: ((if w.networkDiffStr = [] then "-".data else w.networkDiffStr) ++ '*' :: (byteToHexUpper (calcChecksum ((encodeWorkCore w ++ ([','] ++ decRepr w.blockHeight ++ [','] ++ (if w.scriptsig = [] then "-".data else w.scriptsig) ++ [','] ++ (if w.networkDiffStr = [] then "-".data else w.networkDiffStr))).drop 1)) ++ "\r\n".data)))))))))))))))) = (bytesToHex w.merkleRoot, some (decRepr w.version ++ ',' :: (decRepr w.versionMask ++ ',' :: (decRepr w.nbits ++ ',' :: (decRepr w.ntime ++ ',' :: (decRepr w.nonceStart ++ ',' :: (decRepr w.nonceEnd ++ ',' :: (bytesToHex w.extranonce2 ++ ',' :: (decRepr w.extranonce2Len ++ ',' :: ((if w.cleanJobs then ['1'] else ['0']) ++ ',' :: (decRepr w.poolDiff ++ ',' :: (decRepr w.blockHeight ++ ',' :: ((if w.scriptsig = [] then "-".data else w.scriptsig) ++ ',' :: ((if w.networkDiffStr = [] then "-".data else w.networkDiffStr) ++ '*' :: (byteToHexUpper (calcChecksum ((encodeWorkCore w ++ ([','] ++ decRepr w.blockHeight ++ [','] ++ (if w.scriptsig = [] then "-".data else w.scriptsig) ++ [','] ++ (if w.networkDiffStr = [] then "-".data else w.networkDiffStr))).drop 1)) ++ "\r\n".data))))))))))))))) :=
      readField_sep 128 _ _ (fieldOk_bytesToHex _ hmerkb) (by rw [bytesToHex_length]; omega) (firstCharOk_decRepr_append _ _)
    have s5 : readField 128 (some (decRepr w.version ++ ',' :: (decRepr w.versionMask ++ ',' :: (decRepr w.nbits ++ ',' :: (decRepr w.ntime ++ ',' :: (decRepr w.nonceStart ++ ',' :: (decRepr w.nonceEnd ++ ',' :: (bytesToHex w.extranonce2 ++ ',' :: (decRepr w.extranonce2Len ++ ',' :: ((if w.cleanJobs then ['1'] else ['0']) ++ ',' :: (decRepr w.poolDiff ++ ',' :: (decRepr w.blockHeight ++ ',' :: ((if w.scriptsig = [] then "-".data else w.scriptsig) ++ ',' :: ((if w.networkDiffStr = [] then "-".data else w.networkDiffStr) ++ '*' :: (byteToHexUpper (calcChecksum ((encodeWorkCore w ++ ([','] ++ decRepr w.blockHeight ++ [','] ++ (if w.scriptsig = [] then "-".data else w.scriptsig) ++ [','] ++ (if w.networkDiffStr = [] then "-".data else w.networkDiffStr))).drop 1)) ++ "\r\n".data))))))))))))))) = (decRepr w.version, some (decRepr w.versionMask ++ ',' :: (decRepr w.nbits ++ ',' :: (decRepr w.ntime ++ ',' :: (decRepr w.nonceStart ++ ',' :: (decRepr w.nonceEnd ++ ',' :: (bytesToHex w.extranonce2 ++ ',' :: (decRepr w.extranonce2Len ++ ',' :: ((if w.cleanJobs then ['1'] else ['0']) ++ ',' :: (decRepr w.poolDiff ++ ',' :: (decRepr w.blockHeight ++ ',' :: ((if w.scriptsig = [] then "-".data else w.scriptsig) ++ ',' :: ((if w.networkDiffStr = [] then "-".data else w.networkDiffStr) ++ '*' :: (byteToHexUpper (calcChecksum ((encodeWorkCore w ++ ([','] ++ decRepr w.blockHeight ++ [','] ++ (if w.scriptsig = [] then "-".data else w.scriptsig) ++ [','] ++ (if w.networkDiffStr = [] then "-".data else w.networkDiffStr))).drop 1)) ++ "\r\n".data)))))))))))))) :=
      readField_sep 128 _ _ (fieldOk_decRepr _) (by have := decRepr_length_le w.version hver; omega) (firstCharOk_decRepr_append _ _)
    have s6 : readField 128 (some (decRepr w.versionMask ++ ',' :: (decRepr w.nbits ++ ',' :: (decRepr w.ntime ++ ',' :: (decRepr w.nonceStart ++ ',' :: (decRepr w.nonceEnd ++ ',' :: (bytesToHex w.extranonce2 ++ ',' :: (decRepr w.extranonce2Len ++ ',' :: ((if w.cleanJobs then ['1'] else ['0']) ++ ',' :: (decRepr w.poolDiff ++ ',' :: (decRepr w.blockHeight ++ ',' :: ((if w.scriptsig = [] then "-".data else w.scriptsig) ++ ',' :: ((if w.networkDiffStr = [] then "-".data else w.networkDiffStr) ++ '*' :: (byteToHexUpper (calcChecksum ((encodeWorkCore w ++ ([','] ++ decRepr w.blockHeight ++ [','] ++ (if w.scriptsig = [] then "-".data else w.scriptsig) ++ [','] ++ (if w.networkDiffStr = [] then "-".data else w.networkDiffStr))).drop 1)) ++ "\r\n".data)))))))))))))) = (decRepr w.versionMask, some (decRepr w.nbits ++ ',' :: (decRepr w.ntime ++ ',' :: (decRepr w.nonceStart ++ ',' :: (decRepr w.nonceEnd ++ ',' :: (bytesToHex w.extranonce2 ++ ',' :: (decRepr w.extranonce2Len ++ ',' :: ((if w.cleanJobs then ['1'] else ['0']) ++ ',' :: (decRepr w.poolDiff ++ ',' :: (decRepr w.blockHeight ++ ',' :: ((if w.scriptsig = [] then "-".data else w.scriptsig) ++ ',' :: ((if w.networkDiffStr = [] then "-".data else w.networkDiffStr) ++ '*' :: (byteToHexUpper (calcChecksum ((encodeWorkCore w ++ ([','] ++ decRepr w.blockHeight ++ [','] ++ (if w.scriptsig = [] then "-".data else w.scriptsig) ++ [','] ++ (if w.networkDiffStr = [] then "-".data else w.networkDiffStr))).drop 1)) ++ "\r\n".data))))))))))))) :=
      readField_sep 128 _ _ (fieldOk_decRepr _) (by have := decRepr_length_le w.versionMask hmask; omega) (firstCharOk_decRepr_append _ _)
    have s7 : readField 128 (some (decRepr w.nbits ++ ',' :: (decRepr w.ntime ++ ',' :: (decRepr w.nonceStart ++ ',' :: (decRepr w.nonceEnd ++ ',' :: (bytesToHex w.extranonce2 ++ ',' :: (decRepr w.extranonce2Len ++ ',' :: ((if w.cleanJobs then ['1'] else ['0']) ++ ',' :: (decRepr w.poolDiff ++ ',' :: (decRepr w.blockHeight ++ ',' :: ((if w.scriptsig = [] then "-".data else w.scriptsig) ++ ',' :: ((if w.networkDiffStr = [] then "-".data else w.networkDiffStr) ++ '*' :: (byteToHexUpper (calcChecksum ((encodeWorkCore w ++ ([','] ++ decRepr w.blockHeight ++ [','] ++ (if w.scriptsig = [] then "-".data else w.scriptsig) ++ [','] ++ (if w.networkDiffStr = [] then "-".data else w.networkDiffStr))).drop 1)) ++ "\r\n".data))))))))))))) = (decRepr w.nbits, some (decRepr w.ntime ++ ',' :: (decRepr w.nonceStart ++ ',' :: (decRepr w.nonceEnd ++ ',' :: (bytesToHex w.extranonce2 ++ ',' :: (decRepr w.extranonce2Len ++ ',' :: ((if w.cleanJobs then ['1'] else ['0']) ++ ',' :: (decRepr w.poolDiff ++ ',' :: (decRepr w.blockHeight ++ ',' :: ((if w.scriptsig = [] then "-".data else w.scriptsig) ++ ',' :: ((if w.networkDiffStr = [] then "-".data else w.networkDiffStr) ++ '*' :: (byteToHexUpper (calcChecksum ((encodeWorkCore w ++ ([','] ++ decRepr w.blockHeight ++ [','] ++ (if w.scriptsig = [] then "-".data else w.scriptsig) ++ [','] ++ (if w.networkDiffStr = [] then "-".data else w.networkDiffStr))).drop 1)) ++ "\r\n".data)))))))))))) :=
      readField_sep 128 _ _ (fieldOk_decRepr _) (by have := decRepr_length_le w.nbits hnbits; omega) (firstCharOk_decRepr_append _ _)
    have s8 : readField 128 (some (decRepr w.ntime ++ ',' :: (decRepr w.nonceStart ++ ',' :: (decRepr w.nonceEnd ++ ',' :: (bytesToHex w.extranonce2 ++ ',' :: (decRepr w.extranonce2Len ++ ',' :: ((if w.cleanJobs then ['1'] else ['0']) ++ ',' :: (decRepr w.poolDiff ++ ',' :: (decRepr w.blockHeight ++ ',' :: ((if w.scriptsig = [] then "-".data else w.scriptsig) ++ ',' :: ((if w.networkDiffStr = [] then "-".data else w.networkDiffStr) ++ '*' :: (byteToHexUpper (calcChecksum ((encodeWorkCore w ++ ([','] ++ decRepr w.blockHeight ++ [','] ++ (if w.scriptsig = [] then "-".data else w.scriptsig) ++ [','] ++ (if w.networkDiffStr = [] then "-".data else w.networkDiffStr))).drop 1)) ++ "\r\n".data)))))))))))) = (decRepr w.ntime, some (decRepr w.nonceStart ++ ',' :: (decRepr w.nonceEnd ++ ',' :: (bytesToHex w.extranonce2 ++ ',' :: (decRepr w.extranonce2Len ++ ',' :: ((if w.cleanJobs then ['1'] else ['0']) ++ ',' :: (decRepr w.poolDiff ++ ',' :: (decRepr w.blockHeight ++ ',' :: ((if w.scriptsig = [] then "-".data else w.scriptsig) ++ ',' :: ((if w.networkDiffStr = [] then "-".data else w.networkDiffStr) ++ '*' :: (byteToHexUpper (calcChecksum ((encodeWorkCore w ++ ([','] ++ decRepr w.blockHeight ++ [','] ++ (if w.scriptsig = [] then "-".data else w.scriptsig) ++ [','] ++ (if w.networkDiffStr = [] then "-".data else w.networkDiffStr))).drop 1)) ++ "\r\n".data))))))))))) :=
      readField_sep 128 _ _ (fieldOk_decRepr _) (by have := decRepr_length_le w.ntime hntime; omega) (firstCharOk_decRepr_append _ _)
    have s9 : readField 128 (some (decRepr w.nonceStart ++ ',' :: (decRepr w.nonceEnd ++ ',' :: (bytesToHex w.extranonce2 ++ ',' :: (decRepr w.extranonce2Len ++ ',' :: ((if w.cleanJobs then ['1'] else ['0']) ++ ',' :: (decRepr w.poolDiff ++ ',' :: (decRepr w.blockHeight ++ ',' :: ((if w.scriptsig = [] then "-".data else w.scriptsig) ++ ',' :: ((if w.networkDiffStr = [] then "-".data else w.networkDiffStr) ++ '*' :: (byteToHexUpper (calcChecksum ((encodeWorkCore w ++ ([','] ++ decRepr w.blockHeight ++ [','] ++ (if w.scriptsig = [] then "-".data else w.scriptsig) ++ [','] ++ (if w.networkDiffStr = [] then "-".data else w.networkDiffStr))).drop 1)) ++ "\r\n".data))))))))))) = (decRepr w.nonceStart, some (decRepr w.nonceEnd ++ ',' :: (bytesToHex w.extranonce2 ++ ',' :: (decRepr w.extranonce2Len ++ ',' :: ((if w.cleanJobs then ['1'] else ['0']) ++ ',' :: (decRepr w.poolDiff ++ ',' :: (decRepr w.blockHeight ++ ',' :: ((if w.scriptsig = [] then "-".data else w.scriptsig) ++ ',' :: ((if w.networkDiffStr = [] then "-".data else w.networkDiffStr) ++ '*' :: (byteToHexUpper (calcChecksum ((encodeWorkCore w ++ ([','] ++ decRepr w.blockHeight ++ [','] ++ (if w.scriptsig = [] then "-".data else w.scriptsig) ++ [','] ++ (if w.networkDiffStr = [] then "-".data else w.networkDiffStr))).drop 1)) ++ "\r\n".data)))))))))) :=
      readField_sep 128 _ _ (fieldOk_decRepr _) (by have := decRepr_length_le w.nonceStart hstart; omega) (firstCharOk_decRepr_append _ _)
    have s10 : readField 128 (some (decRepr w.nonceEnd ++ ',' :: (bytesToHex w.extranonce2 ++ ',' :: (decRepr w.extranonce2Len ++ ',' :: ((if w.cleanJobs then ['1'] else ['0']) ++ ',' :: (decRepr w.poolDiff ++ ',' :: (decRepr w.blockHeight ++ ',' :: ((if w.scriptsig = [] then "-".data else w.scriptsig) ++ ',' :: ((if w.networkDiffStr = [] then "-".data else w.networkDiffStr) ++ '*' :: (byteToHexUpper (calcChecksum ((encodeWorkCore w ++ ([','] ++ decRepr w.blockHeight ++ [','] ++ (if w.scriptsig = [] then "-".data else w.scriptsig) ++ [','] ++ (if w.networkDiffStr = [] then "-".data else w.networkDiffStr))).drop 1)) ++ "\r\n".data)))))))))) = (decRepr w.nonceEnd, some (bytesToHex w.extranonce2 ++ ',' :: (decRepr w.extranonce2Len ++ ',' :: ((if w.cleanJobs then ['1'] else ['0']) ++ ',' :: (decRepr w.poolDiff ++ ',' :: (decRepr w.blockHeight ++ ',' :: ((if w.scriptsig = [] then "-".data else w.scriptsig) ++ ',' :: ((if w.networkDiffStr = [] then "-".data else w.networkDiffStr) ++ '*' :: (byteToHexUpper (calcChecksum ((encodeWorkCore w ++ ([','] ++ decRepr w.blockHeight ++ [','] ++ (if w.scriptsig = [] then "-".data else w.scriptsig) ++ [','] ++ (if w.networkDiffStr = [] then "-".data else w.networkDiffStr))).drop 1)) ++ "\r\n".data))))))))) :=
      readField_sep 128 _ _ (fieldOk_decRepr _) (by have := decRepr_length_le w.nonceEnd hend; omega) (firstCharOk_append _ _ (fieldOk_bytesToHex _ hbytes) (firstCharOk_cons ',' _ (by decide)))
    have s11 : readField 128 (some (bytesToHex w.extranonce2 ++ ',' :: (decRepr w.extranonce2Len ++ ',' :: ((if w.cleanJobs then ['1'] else ['0']) ++ ',' :: (decRepr w.poolDiff ++ ',' :: (decRepr w.blockHeight ++ ',' :: ((if w.scriptsig = [] then "-".data else w.scriptsig) ++ ',' :: ((if w.networkDiffStr = [] then "-".data else w.networkDiffStr) ++ '*' :: (byteToHexUpper (calcChecksum ((encodeWorkCore w ++ ([','] ++ decRepr w.blockHeight ++ [','] ++ (if w.scriptsig = [] then "-".data else w.scriptsig) ++ [','] ++ (if w.networkDiffStr = [] then "-".data else w.networkDiffStr))).drop 1)) ++ "\r\n".data))))))))) = (bytesToHex w.extranonce2, some (decRepr w.extranonce2Len ++ ',' :: ((if w.cleanJobs then ['1'] else ['0']) ++ ',' :: (decRepr w.poolDiff ++ ',' :: (decRepr w.blockHeight ++ ',' :: ((if w.scriptsig = [] then "-".data else w.scriptsig) ++ ',' :: ((if w.networkDiffStr = [] then "-".data else w.networkDiffStr) ++ '*' :: (byteToHexUpper (calcChecksum ((encodeWorkCore w ++ ([','] ++ decRepr w.blockHeight ++ [','] ++ (if w.scriptsig = [] then "-".data else w.scriptsig) ++ [','] ++ (if w.networkDiffStr = [] then "-".data else w.networkDiffStr))).drop 1)) ++ "\r\n".data)))))))) :=
      readField_sep 128 _ _ (fieldOk_bytesToHex _ hbytes) (by rw [bytesToHex_length]; omega) (firstCharOk_decRepr_append _ _)
    have s12 : readField 128 (some (decRepr w.extranonce2Len ++ ',' :: ((if w.cleanJobs then ['1'] else ['0']) ++ ',' :: (decRepr w.poolDiff ++ ',' :: (decRepr w.blockHeight ++ ',' :: ((if w.scriptsig = [] then "-".data else w.scriptsig) ++ ',' :: ((if w.networkDiffStr = [] then "-".data else w.networkDiffStr) ++ '*' :: (byteToHexUpper (calcChecksum ((encodeWorkCore w ++ ([','] ++ decRepr w.blockHeight ++ [','] ++ (if w.scriptsig = [] then "-".data else w.scriptsig) ++ [','] ++ (if w.networkDiffStr = [] then "-".data else w.networkDiffStr))).drop 1)) ++ "\r\n".data)))))))) = (decRepr w.extranonce2Len, some ((if w.cleanJobs then ['1'] else ['0']) ++ ',' :: (decRepr w.poolDiff ++ ',' :: (decRepr w.blockHeight ++ ',' :: ((if w.scriptsig = [] then "-".data else w.scriptsig) ++ ',' :: ((if w.networkDiffStr = [] then "-".data else w.networkDiffStr) ++ '*' :: (byteToHexUpper (calcChecksum ((encodeWorkCore w ++ ([','] ++ decRepr w.blockHeight ++ [','] ++ (if w.scriptsig = [] then "-".data else w.scriptsig) ++ [','] ++ (if w.networkDiffStr = [] then "-".data else w.networkDiffStr))).drop 1)) ++ "\r\n".data))))))) :=
      readField_sep 128 _ _ (fieldOk_decRepr _) (by have := decRepr_length_le w.extranonce2Len (by omega); omega) (firstCharOk_append _ _ hf13 (firstCharOk_cons ',' _ (by decide)))
    have s13 : readField 128 (some ((if w.cleanJobs then ['1'] else ['0']) ++ ',' :: (decRepr w.poolDiff ++ ',' :: (decRepr w.blockHeight ++ ',' :: ((if w.scriptsig = [] then "-".data else w.scriptsig) ++ ',' :: ((if w.networkDiffStr = [] then "-".data else w.networkDiffStr) ++ '*' :: (byteToHexUpper (calcChecksum ((encodeWorkCore w ++ ([','] ++ decRepr w.blockHeight ++ [','] ++ (if w.scriptsig = [] then "-".data else w.scriptsig) ++ [','] ++ (if w.networkDiffStr = [] then "-".data else w.networkDiffStr))).drop 1)) ++ "\r\n".data))))))) = ((if w.cleanJobs then ['1'] else ['0']), some (decRepr w.poolDiff ++ ',' :: (decRepr w.blockHeight ++ ',' :: ((if w.scriptsig = [] then "-".data else w.scriptsig) ++ ',' :: ((if w.networkDiffStr = [] then "-".data else w.networkDiffStr) ++ '*' :: (byteToHexUpper (calcChecksum ((encodeWorkCore w ++ ([','] ++ decRepr w.blockHeight ++ [','] ++ (if w.scriptsig = [] then "-".data else w.scriptsig) ++ [','] ++ (if w.networkDiffStr = [] then "-".data else w.networkDiffStr))).drop 1)) ++ "\r\n".data)))))) :=
      readField_sep 128 _ _ hf13 hf13len (firstCharOk_decRepr_append _ _)
    have s14 : readField 128 (some (decRepr w.poolDiff ++ ',' :: (decRepr w.blockHeight ++ ',' :: ((if w.scriptsig = [] then "-".data else w.scriptsig) ++ ',' :: ((if w.networkDiffStr = [] then "-".data else w.networkDiffStr) ++ '*' :: (byteToHexUpper (calcChecksum ((encodeWorkCore w ++ ([','] ++ decRepr w.blockHeight ++ [','] ++ (if w.scriptsig = [] then "-".data else w.scriptsig) ++ [','] ++ (if w.networkDiffStr = [] then "-".data else w.networkDiffStr))).drop 1)) ++ "\r\n".data)))))) = (decRepr w.poolDiff, some (decRepr w.blockHeight ++ ',' :: ((if w.scriptsig = [] then "-".data else w.scriptsig) ++ ',' :: ((if w.networkDiffStr = [] then "-".data else w.networkDiffStr) ++ '*' :: (byteToHexUpper (calcChecksum ((encodeWorkCore w ++ ([','] ++ decRepr w.blockHeight ++ [','] ++ (if w.scriptsig = [] then "-".data else w.scriptsig) ++ [','] ++ (if w.networkDiffStr = [] then "-".data else w.networkDiffStr))).drop 1)) ++ "\r\n".data))))) :=
      readField_sep 128 _ _ (fieldOk_decRepr _) (by have := decRepr_length_le w.poolDiff hdiff; omega) (firstCharOk_decRepr_append _ _)
    have s15 : readField 128 (some (decRepr w.blockHeight ++ ',' :: ((if w.scriptsig = [] then "-".data else w.scriptsig) ++ ',' :: ((if w.networkDiffStr = [] then "-".data else w.networkDiffStr) ++ '*' :: (byteToHexUpper (calcChecksum ((encodeWorkCore w ++ ([','] ++ decRepr w.blockHeight ++ [','] ++ (if w.scriptsig = [] then "-".data else w.scriptsig) ++ [','] ++ (if w.networkDiffStr = [] then "-".data else w.networkDiffStr))).drop 1)) ++ "\r\n".data))))) = (decRepr w.blockHeight, some ((if w.scriptsig = [] then "-".data else w.scriptsig) ++ ',' :: ((if w.networkDiffStr = [] then "-".data else w.networkDiffStr) ++ '*' :: (byteToHexUpper (calcChecksum ((encodeWorkCore w ++ ([','] ++ decRepr w.blockHeight ++ [','] ++ (if w.scriptsig = [] then "-".data else w.scriptsig) ++ [','] ++ (if w.networkDiffStr = [] then "-".data else w.networkDiffStr))).drop 1)) ++ "\r\n".data)))) :=
      readField_sep 128 _ _ (fieldOk_decRepr _) (by have := decRepr_length_le w.blockHeight hbh; omega) (firstCharOk_append _ _ hfss (firstCharOk_cons ',' _ (by decide)))
    have s16 : readField 128 (some ((if w.scriptsig = [] then "-".data else w.scriptsig) ++ ',' :: ((if w.networkDiffStr = [] then "-".data else w.networkDiffStr) ++ '*' :: (byteToHexUpper (calcChecksum ((encodeWorkCore w ++ ([','] ++ decRepr w.blockHeight ++ [','] ++ (if w.scriptsig = [] then "-".data else w.scriptsig) ++ [','] ++ (if w.networkDiffStr = [] then "-".data else w.networkDiffStr))).drop 1)) ++ "\r\n".data)))) = ((if w.scriptsig = [] then "-".data else w.scriptsig), some ((if w.networkDiffStr = [] then "-".data else w.networkDiffStr) ++ '*' :: (byteToHexUpper (calcChecksum ((encodeWorkCore w ++ ([','] ++ decRepr w.blockHeight ++ [','] ++ (if w.scriptsig = [] then "-".data else w.scriptsig) ++ [','] ++ (if w.networkDiffStr = [] then "-".data else w.networkDiffStr))).drop 1)) ++ "\r\n".data))) :=
      readField_sep 128 _ _ hfss hfsslen (firstCharOk_append_of_ne_nil _ _ hfnd hndne)
    have s17 : readField 128 (some ((if w.networkDiffStr = [] then "-".data else w.networkDiffStr) ++ '*' :: (byteToHexUpper (calcChecksum ((encodeWorkCore w ++ ([','] ++ decRepr w.blockHeight ++ [','] ++ (if w.scriptsig = [] then "-".data else w.scriptsig) ++ [','] ++ (if w.networkDiffStr = [] then "-".data else w.networkDiffStr))).drop 1)) ++ "\r\n".data))) = ((if w.networkDiffStr = [] then "-".data else w.networkDiffStr), none) :=
      readField_term 128 _ _ hfnd hfndlen
    refine ⟨⟨w.targetSlaveId, w.jobId, w.prevBlockHash, w.merkleRoot, w.version, w.versionMask,
        w.nbits, w.ntime, w.nonceStart, w.nonceEnd, w.extranonce2, w.extranonce2Len,
        w.cleanJobs, w.poolDiff, 0, w.blockHeight,
        if (if w.scriptsig = [] then "-".data else w.scriptsig) = "-".data then [] else (if w.scriptsig = [] then "-".data else w.scriptsig).take 31,
        if (if w.networkDiffStr = [] then "-".data else w.networkDiffStr) = "-".data then [] else (if w.networkDiffStr = [] then "-".data else w.networkDiffStr).take 15⟩,
      ?_, rfl, rfl, rfl, rfl, rfl, rfl, rfl, rfl, rfl, rfl, rfl, rfl, rfl, rfl⟩
    simp only [decodeWork, decodeWorkTail, s1, s2, s3, s4, s5, s6, s7, s8, s9, s10, s11, s12, s13, s14, s15, s16, s17]
    simp [parseDec_decRepr, henx, hprevx, hmerkx, hlen, hprev64, hmerk64, hclean,
      Nat.mod_eq_of_lt htar, Nat.mod_eq_of_lt hjid, Nat.mod_eq_of_lt hver,
      Nat.mod_eq_of_lt hmask, Nat.mod_eq_of_lt hnbits, Nat.mod_eq_of_lt hntime,
      Nat.mod_eq_of_lt hstart, Nat.mod_eq_of_lt hend, Nat.mod_eq_of_lt hdiff,
      Nat.mod_eq_of_lt hbh]
    omega
  · rw [if_neg hb3] at henc
    have hframe : frame = finalizeMessage (encodeWorkCore w) :=
      (Option.some.inj henc).symm
    have key : ∀ u v : List Char,
        (encodeWorkCore w ++ ['*'] ++ u ++ v).drop 7 =
        decRepr w.targetSlaveId ++ ',' :: (decRepr w.jobId ++ ',' :: (bytesToHex w.prevBlockHash ++ ',' :: (bytesToHex w.merkleRoot ++ ',' :: (decRepr w.version ++ ',' :: (decRepr w.versionMask ++ ',' :: (decRepr w.nbits ++ ',' :: (decRepr w.ntime ++ ',' :: (decRepr w.nonceStart ++ ',' :: (decRepr w.nonceEnd ++ ',' :: (bytesToHex w.extranonce2 ++ ',' :: (decRepr w.extranonce2Len ++ ',' :: ((if w.cleanJobs then ['1'] else ['0']) ++ ',' :: (decRepr w.poolDiff ++ '*' :: (u ++ v)))))))))))))) := by
      intro u v
      show ((("$CLWRK,".data
        ++ decRepr w.targetSlaveId
        ++ [','] ++ decRepr w.jobId
        ++ [','] ++ bytesToHex w.prevBlockHash
        ++ [','] ++ bytesToHex w.merkleRoot
        ++ [','] ++ decRepr w.version
        ++ [','] ++ decRepr w.versionMask
        ++ [','] ++ decRepr w.nbits
        ++ [','] ++ decRepr w.ntime
        ++ [','] ++ decRepr w.nonceStart
        ++ [','] ++ decRepr w.nonceEnd
        ++ [','] ++ bytesToHex (w.extranonce2.take w.extranonce2Len)
        ++ [','] ++ decRepr w.extranonce2Len
        ++ [','] ++ (if w.cleanJobs then ['1'] else ['0'])
        ++ [','] ++ decRepr w.poolDiff) ++ ['*'] ++ u ++ v).drop 7 = _)
      rw [htake]
      simp only [List.append_assoc]
      rw [show (7 : Nat) = ("$CLWRK,".data).length from rfl, List.drop_left "$CLWRK,".data]
      simp [List.append_assoc]
    have hdrop : (finalizeMessage (encodeWorkCore w)).drop 7 =
        decRepr w.targetSlaveId ++ ',' :: (decRepr w.jobId ++ ',' :: (bytesToHex w.prevBlockHash ++ ',' :: (bytesToHex w.merkleRoot ++ ',' :: (decRepr w.version ++ ',' :: (decRepr w.versionMask ++ ',' :: (decRepr w.nbits ++ ',' :: (decRepr w.ntime ++ ',' :: (decRepr w.nonceStart ++ ',' :: (decRepr w.nonceEnd ++ ',' :: (bytesToHex w.extranonce2 ++ ',' :: (decRepr w.extranonce2Len ++ ',' :: ((if w.cleanJobs then ['1'] else ['0']) ++ ',' :: (decRepr w.poolDiff ++ '*' :: (byteToHexUpper (calcChecksum ((encodeWorkCore w).drop 1)) ++ "\r\n".data)))))))))))))) :=
      key (byteToHexUpper (calcChecksum ((encodeWorkCore w).drop 1))) "\r\n".data
    rw [hframe, hdrop]
    have s1 : readField 128 (some (decRepr w.targetSlaveId ++ ',' :: (decRepr w.jobId ++ ',' :: (bytesToHex w.prevBlockHash ++ ',' :: (bytesToHex w.merkleRoot ++ ',' :: (decRepr w.version ++ ',' :: (decRepr w.versionMask ++ ',' :: (decRepr w.nbits ++ ',' :: (decRepr w.ntime ++ ',' :: (decRepr w.nonceStart ++ ',' :: (decRepr w.nonceEnd ++ ',' :: (bytesToHex w.extranonce2 ++ ',' :: (decRepr w.extranonce2Len ++ ',' :: ((if w.cleanJobs then ['1'] else ['0']) ++ ',' :: (decRepr w.poolDiff ++ '*' :: (byteToHexUpper (calcChecksum ((encodeWorkCore w).drop 1)) ++ "\r\n".data)))))))))))))))) = (decRepr w.targetSlaveId, some (decRepr w.jobId ++ ',' :: (bytesToHex w.prevBlockHash ++ ',' :: (bytesToHex w.merkleRoot ++ ',' :: (decRepr w.version ++ ',' :: (decRepr w.versionMask ++ ',' :: (decRepr w.nbits ++ ',' :: (decRepr w.ntime ++ ',' :: (decRepr w.nonceStart ++ ',' :: (decRepr w.nonceEnd ++ ',' :: (bytesToHex w.extranonce2 ++ ',' :: (decRepr w.extranonce2Len ++ ',' :: ((if w.cleanJobs then ['1'] else ['0']) ++ ',' :: (decRepr w.poolDiff ++ '*' :: (byteToHexUpper (calcChecksum ((encodeWorkCore w).drop 1)) ++ "\r\n".data))))))))))))))) :=
      readField_sep 128 _ _ (fieldOk_decRepr _) (by have := decRepr_length_le w.targetSlaveId htar32; omega) (firstCharOk_decRepr_append _ _)
    have s2 : readField 128 (some (decRepr w.jobId ++ ',' :: (bytesToHex w.prevBlockHash ++ ',' :: (bytesToHex w.merkleRoot ++ ',' :: (decRepr w.version ++ ',' :: (decRepr w.versionMask ++ ',' :: (decRepr w.nbits ++ ',' :: (decRepr w.ntime ++ ',' :: (decRepr w.nonceStart ++ ',' :: (decRepr w.nonceEnd ++ ',' :: (bytesToHex w.extranonce2 ++ ',' :: (decRepr w.extranonce2Len ++ ',' :: ((if w.cleanJobs then ['1'] else ['0']) ++ ',' :: (decRepr w.poolDiff ++ '*' :: (byteToHexUpper (calcChecksum ((encodeWorkCore w).drop 1)) ++ "\r\n".data))))))))))))))) = (decRepr w.jobId, some (bytesToHex w.prevBlockHash ++ ',' :: (bytesToHex w.merkleRoot ++ ',' :: (decRepr w.version ++ ',' :: (decRepr w.versionMask ++ ',' :: (decRepr w.nbits ++ ',' :: (decRepr w.ntime ++ ',' :: (decRepr w.nonceStart ++ ',' :: (decRepr w.nonceEnd ++ ',' :: (bytesToHex w.extranonce2 ++ ',' :: (decRepr w.extranonce2Len ++ ',' :: ((if w.cleanJobs then ['1'] else ['0']) ++ ',' :: (decRepr w.poolDiff ++ '*' :: (byteToHexUpper (calcChecksum ((encodeWorkCore w).drop 1)) ++ "\r\n".data)))))))))))))) :=
      readField_sep 128 _ _ (fieldOk_decRepr _) (by have := decRepr_length_le w.jobId hjid; omega) (firstCharOk_append _ _ (fieldOk_bytesToHex _ hprevb) (firstCharOk_cons ',' _ (by decide)))
    have s3 : readField 128 (some (bytesToHex w.prevBlockHash ++ ',' :: (bytesToHex w.merkleRoot ++ ',' :: (decRepr w.version ++ ',' :: (decRepr w.versionMask ++ ',' :: (decRepr w.nbits ++ ',' :: (decRepr w.ntime ++ ',' :: (decRepr w.nonceStart ++ ',' :: (decRepr w.nonceEnd ++ ',' :: (bytesToHex w.extranonce2 ++ ',' :: (decRepr w.extranonce2Len ++ ',' :: ((if w.cleanJobs then ['1'] else ['0']) ++ ',' :: (decRepr w.poolDiff ++ '*' :: (byteToHexUpper (calcChecksum ((encodeWorkCore w).drop 1)) ++ "\r\n".data)))))))))))))) = (bytesToHex w.prevBlockHash, some (bytesToHex w.merkleRoot ++ ',' :: (decRepr w.version ++ ',' :: (decRepr w.versionMask ++ ',' :: (decRepr w.nbits ++ ',' :: (decRepr w.ntime ++ ',' :: (decRepr w.nonceStart ++ ',' :: (decRepr w.nonceEnd ++ ',' :: (bytesToHex w.extranonce2 ++ ',' :: (decRepr w.extranonce2Len ++ ',' :: ((if w.cleanJobs then ['1'] else ['0']) ++ ',' :: (decRepr w.poolDiff ++ '*' :: (byteToHexUpper (calcChecksum ((encodeWorkCore w).drop 1)) ++ "\r\n".data))))))))))))) :=
      readField_sep 128 _ _ (fieldOk_bytesToHex _ hprevb) (by rw [bytesToHex_length]; omega) (firstCharOk_append _ _ (fieldOk_bytesToHex _ hmerkb) (firstCharOk_cons ',' _ (by decide)))
    have s4 : readField 128 (some (bytesToHex w.merkleRoot ++ ',' :: (decRepr w.version ++ ',' :: (decRepr w.versionMask ++ ',' :: (decRepr w.nbits ++ ',' :: (decRepr w.ntime ++ ',' :: (decRepr w.nonceStart ++ ',' :: (decRepr w.nonceEnd ++ ',' :: (bytesToHex w.extranonce2 ++ ',' :: (decRepr w.extranonce2Len ++ ',' :: ((if w.cleanJobs then ['1'] else ['0']) ++ ',' :: (decRepr w.poolDiff ++ '*' :: (byteToHexUpper (calcChecksum ((encodeWorkCore w).drop 1)) ++ "\r\n".data))))))))))))) = (bytesToHex w.merkleRoot, some (decRepr w.version ++ ',' :: (decRepr w.versionMask ++ ',' :: (decRepr w.nbits ++ ',' :: (decRepr w.ntime ++ ',' :: (decRepr w.nonceStart ++ ',' :: (decRepr w.nonceEnd ++ ',' :: (bytesToHex w.extranonce2 ++ ',' :: (decRepr w.extranonce2Len ++ ',' :: ((if w.cleanJobs then ['1'] else ['0']) ++ ',' :: (decRepr w.poolDiff ++ '*' :: (byteToHexUpper (calcChecksum ((encodeWorkCore w).drop 1)) ++ "\r\n".data)))))))))))) :=
      readField_sep 128 _ _ (fieldOk_bytesToHex _ hmerkb) (by rw [bytesToHex_length]; omega) (firstCharOk_decRepr_append _ _)
    have s5 : readField 128 (some (decRepr w.version ++ ',' :: (decRepr w.versionMask ++ ',' :: (decRepr w.nbits ++ ',' :: (decRepr w.ntime ++ ',' :: (decRepr w.nonceStart ++ ',' :: (decRepr w.nonceEnd ++ ',' :: (bytesToHex w.extranonce2 ++ ',' :: (decRepr w.extranonce2Len ++ ',' :: ((if w.cleanJobs then ['1'] else ['0']) ++ ',' :: (decRepr w.poolDiff ++ '*' :: (byteToHexUpper (calcChecksum ((encodeWorkCore w).drop 1)) ++ "\r\n".data)))))))))))) = (decRepr w.version, some (decRepr w.versionMask ++ ',' :: (decRepr w.nbits ++ ',' :: (decRepr w.ntime ++ ',' :: (decRepr w.nonceStart ++ ',' :: (decRepr w.nonceEnd ++ ',' :: (bytesToHex w.extranonce2 ++ ',' :: (decRepr w.extranonce2Len ++ ',' :: ((if w.cleanJobs then ['1'] else ['0']) ++ ',' :: (decRepr w.poolDiff ++ '*' :: (byteToHexUpper (calcChecksum ((encodeWorkCore w).drop 1)) ++ "\r\n".data))))))))))) :=
      readField_sep 128 _ _ (fieldOk_decRepr _) (by have := decRepr_length_le w.version hver; omega) (firstCharOk_decRepr_append _ _)
    have s6 : readField 128 (some (decRepr w.versionMask ++ ',' :: (decRepr w.nbits ++ ',' :: (decRepr w.ntime ++ ',' :: (decRepr w.nonceStart ++ ',' :: (decRepr w.nonceEnd ++ ',' :: (bytesToHex w.extranonce2 ++ ',' :: (decRepr w.extranonce2Len ++ ',' :: ((if w.cleanJobs then ['1'] else ['0']) ++ ',' :: (decRepr w.poolDiff ++ '*' :: (byteToHexUpper (calcChecksum ((encodeWorkCore w).drop 1)) ++ "\r\n".data))))))))))) = (decRepr w.versionMask, some (decRepr w.nbits ++ ',' :: (decRepr w.ntime ++ ',' :: (decRepr w.nonceStart ++ ',' :: (decRepr w.nonceEnd ++ ',' :: (bytesToHex w.extranonce2 ++ ',' :: (decRepr w.extranonce2Len ++ ',' :: ((if w.cleanJobs then ['1'] else ['0']) ++ ',' :: (decRepr w.poolDiff ++ '*' :: (byteToHexUpper (calcChecksum ((encodeWorkCore w).drop 1)) ++ "\r\n".data)))))))))) :=
      readField_sep 128 _ _ (fieldOk_decRepr _) (by have := decRepr_length_le w.versionMask hmask; omega) (firstCharOk_decRepr_append _ _)
    have s7 : readField 128 (some (decRepr w.nbits ++ ',' :: (decRepr w.ntime ++ ',' :: (decRepr w.nonceStart ++ ',' :: (decRepr w.nonceEnd ++ ',' :: (bytesToHex w.extranonce2 ++ ',' :: (decRepr w.extranonce2Len ++ ',' :: ((if w.cleanJobs then ['1'] else ['0']) ++ ',' :: (decRepr w.poolDiff ++ '*' :: (byteToHexUpper (calcChecksum ((encodeWorkCore w).drop 1)) ++ "\r\n".data)))))))))) = (decRepr w.nbits, some (decRepr w.ntime ++ ',' :: (decRepr w.nonceStart ++ ',' :: (decRepr w.nonceEnd ++ ',' :: (bytesToHex w.extranonce2 ++ ',' :: (decRepr w.extranonce2Len ++ ',' :: ((if w.cleanJobs then ['1'] else ['0']) ++ ',' :: (decRepr w.poolDiff ++ '*' :: (byteToHexUpper (calcChecksum ((encodeWorkCore w).drop 1)) ++ "\r\n".data))))))))) :=
      readField_sep 128 _ _ (fieldOk_decRepr _) (by have := decRepr_length_le w.nbits hnbits; omega) (firstCharOk_decRepr_append _ _)
    have s8 : readField 128 (some (decRepr w.ntime ++ ',' :: (decRepr w.nonceStart ++ ',' :: (decRepr w.nonceEnd ++ ',' :: (bytesToHex w.extranonce2 ++ ',' :: (decRepr w.extranonce2Len ++ ',' :: ((if w.cleanJobs then ['1'] else ['0']) ++ ',' :: (decRepr w.poolDiff ++ '*' :: (byteToHexUpper (calcChecksum ((encodeWorkCore w).drop 1)) ++ "\r\n".data))))))))) = (decRepr w.ntime, some (decRepr w.nonceStart ++ ',' :: (decRepr w.nonceEnd ++ ',' :: (bytesToHex w.extranonce2 ++ ',' :: (decRepr w.extranonce2Len ++ ',' :: ((if w.cleanJobs then ['1'] else ['0']) ++ ',' :: (decRepr w.poolDiff ++ '*' :: (byteToHexUpper (calcChecksum ((encodeWorkCore w).drop 1)) ++ "\r\n".data)))))))) :=
      readField_sep 128 _ _ (fieldOk_decRepr _) (by have := decRepr_length_le w.ntime hntime; omega) (firstCharOk_decRepr_append _ _)
    have s9 : readField 128 (some (decRepr w.nonceStart ++ ',' :: (decRepr w.nonceEnd ++ ',' :: (bytesToHex w.extranonce2 ++ ',' :: (decRepr w.extranonce2Len ++ ',' :: ((if w.cleanJobs then ['1'] else ['0']) ++ ',' :: (decRepr w.poolDiff ++ '*' :: (byteToHexUpper (calcChecksum ((encodeWorkCore w).drop 1)) ++ "\r\n".data)))))))) = (decRepr w.nonceStart, some (decRepr w.nonceEnd ++ ',' :: (bytesToHex w.extranonce2 ++ ',' :: (decRepr w.extranonce2Len ++ ',' :: ((if w.cleanJobs then ['1'] else ['0']) ++ ',' :: (decRepr w.poolDiff ++ '*' :: (byteToHexUpper (calcChecksum ((encodeWorkCore w).drop 1)) ++ "\r\n".data))))))) :=
      readField_sep 128 _ _ (fieldOk_decRepr _) (by have := decRepr_length_le w.nonceStart hstart; omega) (firstCharOk_decRepr_append _ _)
    have s10 : readField 128 (some (decRepr w.nonceEnd ++ ',' :: (bytesToHex w.extranonce2 ++ ',' :: (decRepr w.extranonce2Len ++ ',' :: ((if w.cleanJobs then ['1'] else ['0']) ++ ',' :: (decRepr w.poolDiff ++ '*' :: (byteToHexUpper (calcChecksum ((encodeWorkCore w).drop 1)) ++ "\r\n".data))))))) = (decRepr w.nonceEnd, some (bytesToHex w.extranonce2 ++ ',' :: (decRepr w.extranonce2Len ++ ',' :: ((if w.cleanJobs then ['1'] else ['0']) ++ ',' :: (decRepr w.poolDiff ++ '*' :: (byteToHexUpper (calcChecksum ((encodeWorkCore w).drop 1)) ++ "\r\n".data)))))) :=
      readField_sep 128 _ _ (fieldOk_decRepr _) (by have := decRepr_length_le w.nonceEnd hend; omega) (firstCharOk_append _ _ (fieldOk_bytesToHex _ hbytes) (firstCharOk_cons ',' _ (by decide)))
    have s11 : readField 128 (some (bytesToHex w.extranonce2 ++ ',' :: (decRepr w.extranonce2Len ++ ',' :: ((if w.cleanJobs then ['1'] else ['0']) ++ ',' :: (decRepr w.poolDiff ++ '*' :: (byteToHexUpper (calcChecksum ((encodeWorkCore w).drop 1)) ++ "\r\n".data)))))) = (bytesToHex w.extranonce2, some (decRepr w.extranonce2Len ++ ',' :: ((if w.cleanJobs then ['1'] else ['0']) ++ ',' :: (decRepr w.poolDiff ++ '*' :: (byteToHexUpper (calcChecksum ((encodeWorkCore w).drop 1)) ++ "\r\n".data))))) :=
      readField_sep 128 _ _ (fieldOk_bytesToHex _ hbytes) (by rw [bytesToHex_length]; omega) (firstCharOk_decRepr_append _ _)
    have s12 : readField 128 (some (decRepr w.extranonce2Len ++ ',' :: ((if w.cleanJobs then ['1'] else ['0']) ++ ',' :: (decRepr w.poolDiff ++ '*' :: (byteToHexUpper (calcChecksum ((encodeWorkCore w).drop 1)) ++ "\r\n".data))))) = (decRepr w.extranonce2Len, some ((if w.cleanJobs then ['1'] else ['0']) ++ ',' :: (decRepr w.poolDiff ++ '*' :: (byteToHexUpper (calcChecksum ((encodeWorkCore w).drop 1)) ++ "\r\n".data)))) :=
      readField_sep 128 _ _ (fieldOk_decRepr _) (by have := decRepr_length_le w.extranonce2Len (by omega); omega) (firstCharOk_append _ _ hf13 (firstCharOk_cons ',' _ (by decide)))
    have s13 : readField 128 (some ((if w.cleanJobs then ['1'] else ['0']) ++ ',' :: (decRepr w.poolDiff ++ '*' :: (byteToHexUpper (calcChecksum ((encodeWorkCore w).drop 1)) ++ "\r\n".data)))) = ((if w.cleanJobs then ['1'] else ['0']), some (decRepr w.poolDiff ++ '*' :: (byteToHexUpper (calcChecksum ((encodeWorkCore w).drop 1)) ++ "\r\n".data))) :=
      readField_sep 128 _ _ hf13 hf13len (firstCharOk_decRepr_append _ _)
    have s14 : readField 128 (some (decRepr w.poolDiff ++ '*' :: (byteToHexUpper (calcChecksum ((encodeWorkCore w).drop 1)) ++ "\r\n".data))) = (decRepr w.poolDiff, none) :=
      readField_term 128 _ _ (fieldOk_decRepr _) (by have := decRepr_length_le w.poolDiff hdiff; omega)
    refine ⟨⟨w.targetSlaveId, w.jobId, w.prevBlockHash, w.merkleRoot, w.version, w.versionMask,
        w.nbits, w.ntime, w.nonceStart, w.nonceEnd, w.extranonce2, w.extranonce2Len,
        w.cleanJobs, w.poolDiff, 0, 0, [], []⟩,
      ?_, rfl, rfl, rfl, rfl, rfl, rfl, rfl, rfl, rfl, rfl, rfl, rfl, rfl, rfl⟩
    simp only [decodeWork, decodeWorkTail, s1, s2, s3, s4, s5, s6, s7, s8, s9, s10, s11, s12, s13, s14]
    simp [parseDec_decRepr, henx, hprevx, hmerkx, hlen, hprev64, hmerk64, hclean,
      Nat.mod_eq_of_lt htar, Nat.mod_eq_of_lt hjid, Nat.mod_eq_of_lt hver,
      Nat.mod_eq_of_lt hmask, Nat.mod_eq_of_lt hnbits, Nat.mod_eq_of_lt hntime,
      Nat.mod_eq_of_lt hstart, Nat.mod_eq_of_lt hend, Nat.mod_eq_of_lt hdiff,
      Nat.mod_eq_of_lt hbh]
    omega

/-- Concrete work unit used to exercise the round-trip theorem. -/
def w₀ : Work :=
  ⟨1, 12345, List.replicate 32 0, List.replicate 32 255, 2, 3, 4, 5, 0, 100,
   [1, 2, 3, 4], 4, true, 512, 0, 800000, "abc".data, "95".data⟩

/-- Concrete share used to exercise the round-trip theorem. -/
def sh₀ : Share := ⟨2, 777, 3735928559, 1700000000, 536870912, [222, 173, 190, 239], 4⟩

/-- C8: every CLWRK / CLSHR frame `cluster_protocol_encode_work` /
`cluster_protocol_encode_share` successfully emits decodes back (via
`cluster_protocol_decode_work` / `cluster_protocol_decode_share` on the
payload after the 7-byte `"$CLWRK,"` / `"$CLSHR,"` prefix) to the input value
of every mandatory field.  The hypotheses are the C type invariants of
`cluster_work_t` / `cluster_share_t`: `uint8_t` / `uint32_t` ranges, the
32-byte hash arrays, `extranonce2[8]` holding `extranonce2_len` bytes, and
display strings that fit their `char[32]` / `char[16]` buffers without the
frame separator characters. -/
theorem encode_decode_roundtrip :
    (∀ (w : Work) (bufferLen : Nat) (frame : List Char),
      w.targetSlaveId < 256 → w.jobId < 2 ^ 32 → w.version < 2 ^ 32 →
      w.versionMask < 2 ^ 32 → w.nbits < 2 ^ 32 → w.ntime < 2 ^ 32 →
      w.nonceStart < 2 ^ 32 → w.nonceEnd < 2 ^ 32 → w.poolDiff < 2 ^ 32 →
      w.blockHeight < 2 ^ 32 →
      w.prevBlockHash.length = 32 → (∀ b ∈ w.prevBlockHash, b < 256) →
      w.merkleRoot.length = 32 → (∀ b ∈ w.merkleRoot, b < 256) →
      w.extranonce2.length = w.extranonce2Len → w.extranonce2Len ≤ 8 →
      (∀ b ∈ w.extranonce2, b < 256) →
      fieldOk w.scriptsig → w.scriptsig.length ≤ 127 →
      fieldOk w.networkDiffStr → w.networkDiffStr.length ≤ 127 →
      encodeWork w bufferLen = some frame →
      ∃ w' : Work, decodeWork (frame.drop 7) = some w'
        ∧ w'.targetSlaveId = w.targetSlaveId ∧ w'.jobId = w.jobId
        ∧ w'.prevBlockHash = w.prevBlockHash ∧ w'.merkleRoot = w.merkleRoot
        ∧ w'.version = w.version ∧ w'.versionMask = w.versionMask
        ∧ w'.nbits = w.nbits ∧ w'.ntime = w.ntime
        ∧ w'.nonceStart = w.nonceStart ∧ w'.nonceEnd = w.nonceEnd
        ∧ w'.extranonce2 = w.extranonce2 ∧ w'.extranonce2Len = w.extranonce2Len
        ∧ w'.cleanJobs = w.cleanJobs ∧ w'.poolDiff = w.poolDiff) ∧
    (∀ (sh : Share) (bufferLen : Nat) (frame : List Char),
      sh.slaveId < 256 → sh.jobId < 2 ^ 32 → sh.nonce < 2 ^ 32 →
      sh.ntime < 2 ^ 32 → sh.version < 2 ^ 32 →
      sh.extranonce2.length = sh.extranonce2Len → sh.extranonce2Len ≤ 8 →
      (∀ b ∈ sh.extranonce2, b < 256) →
      encodeShare sh bufferLen = some frame →
      decodeShare (frame.drop 7) = some ⟨sh.slaveId, sh.jobId, sh.nonce, sh.ntime,
        sh.version, sh.extranonce2, sh.extranonce2Len⟩) :=
  ⟨fun w bufferLen frame h1 h2 h3 h4 h5 h6 h7 h8 h9 h10 h11 h12 h13 h14 h15 h16 h17
      h18 h19 h20 h21 henc =>
    decodeWork_encodeWork w bufferLen frame h1 h2 h3 h4 h5 h6 h7 h8 h9 h10 h11 h12
      h13 h14 h15 h16 h17 h18 h19 h20 h21 henc,
   fun sh bufferLen frame h1 h2 h3 h4 h5 h6 h7 h8 henc =>
    decodeShare_encodeShare sh bufferLen frame h1 h2 h3 h4 h5 h6 h7 h8 henc⟩

set_option maxRecDepth 20000 in
/-- Witness: the round-trip theorem applied to the concrete work unit `w₀`
(512-byte buffer) and the concrete share `sh₀` (256-byte buffer). -/
theorem encode_decode_roundtrip_witness :
    (∃ w' : Work, decodeWork (((encodeWork w₀ 512).getD []).drop 7) = some w'
      ∧ w'.targetSlaveId = w₀.targetSlaveId ∧ w'.jobId = w₀.jobId
      ∧ w'.prevBlockHash = w₀.prevBlockHash ∧ w'.merkleRoot = w₀.merkleRoot
      ∧ w'.version = w₀.version ∧ w'.versionMask = w₀.versionMask
      ∧ w'.nbits = w₀.nbits ∧ w'.ntime = w₀.ntime
      ∧ w'.nonceStart = w₀.nonceStart ∧ w'.nonceEnd = w₀.nonceEnd
      ∧ w'.extranonce2 = w₀.extranonce2 ∧ w'.extranonce2Len = w₀.extranonce2Len
      ∧ w'.cleanJobs = w₀.cleanJobs ∧ w'.poolDiff = w₀.poolDiff) ∧
    decodeShare (((encodeShare sh₀ 256).getD []).drop 7) = some ⟨sh₀.slaveId,
      sh₀.jobId, sh₀.nonce, sh₀.ntime, sh₀.version, sh₀.extranonce2,
      sh₀.extranonce2Len⟩ :=
  ⟨encode_decode_roundtrip.1 w₀ 512 ((encodeWork w₀ 512).getD [])
      (by decide) (by decide) (by decide) (by decide) (by decide) (by decide)
      (by decide) (by decide) (by decide) (by decide) (by decide) (by decide)
      (by decide) (by decide) (by decide) (by decide) (by decide) (by decide)
      (by decide) (by decide) (by decide) rfl,
   encode_decode_roundtrip.2 sh₀ 256 ((encodeShare sh₀ 256).getD [])
      (by decide) (by decide) (by decide) (by decide) (by decide) (by decide)
      (by decide) (by decide) rfl⟩

end Codec

-- ============================================================================
-- BAP message routing, slave side: cluster_handle_bap_message (cluster.c,
-- lines 248-357)
-- ============================================================================

namespace Dispatcher

/-- Where the slave-mode `strcmp` chain of `cluster_handle_bap_message` routes
a frame: `CLWRK` to `cluster_slave_receive_work`, `CLACK` to
`cluster_slave_handle_ack`, `CLHBT` is acknowledged as a keepalive, `CLSYN`
is accepted as a no-op, and anything else hits the final
"Unhandled message type" branch, returning `ESP_ERR_NOT_SUPPORTED`. -/
inductive SlaveRoute where
  | receiveWork
  | handleAck
  | heartbeatAck
  | syncOk
  | notSupported
deriving DecidableEq, Repr

/-- The slave-side branch of `cluster_handle_bap_message`: the `strcmp` chain
over the message type.  There is no branch for `BAP_MSG_TIMING` (`"CLTIM"`). -/
def slaveDispatch (msgType : String) : SlaveRoute :=
  if msgType = "CLWRK" then .receiveWork
  else if msgType = "CLACK" then .handleAck
  else if msgType = "CLHBT" then .heartbeatAck
  else if msgType = "CLSYN" then .syncOk
  else .notSupported

/-- **C4 (code bug).** A Worker receiving a broadcast `CLTIM(interval)` frame
does *not* override its local job interval: the slave-side dispatcher has no
branch for `"CLTIM"` and rejects the frame as unsupported
(`ESP_ERR_NOT_SUPPORTED`), even though the decoder for the frame exists and
accepts it (`cluster_protocol_decode_timing "600" = 600`; that decoder is
never called anywhere in the repository, and the sending half
`cluster_master_broadcast_timing` is declared in cluster.h and called from
auto_timing.c but defined nowhere).  The claim describes the evident intent;
the dispatch branch is missing. -/
theorem cltim_rejected_as_unsupported :
    slaveDispatch "CLTIM" = .notSupported
    ∧ Codec.decodeTiming ("600*2A".data) = some 600 := by
  constructor
  · rfl
  · decide

end Dispatcher

-- ============================================================================
-- Slave share path: cluster_slave_on_share_found (cluster_slave.c, lines
-- 323-369) and cluster_slave_intercept_share (cluster_integration.c, lines
-- 765-796)
-- ============================================================================

namespace SlaveShare

/-- The fields of `cluster_work_t` the share path reads. -/
structure CurrentWork where
  extranonce2 : List Nat
  extranonce2Len : Nat
deriving DecidableEq, Repr

/-- The fields of `bm_job` the intercept path reads: `jobid` (hex string of
the numeric cluster job id) and `extranonce2` (hex string the ASIC job was
built with). -/
structure BmJob where
  jobid : String
  extranonce2 : String
deriving DecidableEq, Repr

/-- The share sent to the master (subset of `cluster_share_t` the slave
fills). -/
structure Share where
  jobId : Nat
  nonce : Nat
  slaveId : Nat
  version : Nat
  ntime : Nat
  extranonce2 : List Nat
  extranonce2Len : Nat
deriving DecidableEq, Repr

/-- Slave-side state touched by `cluster_slave_on_share_found`. -/
structure SlaveState where
  myId : Nat
  workValid : Bool
  currentWork : CurrentWork
  recentShares : List (Option (Nat × Nat))
  recentIdx : Nat
  sharesFound : Nat
  shareQueue : List Share
deriving DecidableEq, Repr

/-- `SLAVE_RECENT_SHARES`. -/
def SLAVE_RECENT_SHARES : Nat := 16

/-- `slave_is_duplicate`. -/
def slaveIsDuplicate (st : SlaveState) (nonce jobId : Nat) : Bool :=
  st.recentShares.any fun e =>
    match e with
    | some (n, j) => n == nonce && j == jobId
    | none => false

/-- `cluster_slave_on_share_found` **as defined in cluster_slave.c**: a
four-parameter function `(nonce, job_id, version, ntime)` that copies the
extranonce2 of `g_slave->current_work` into the share — the work that is
*current* when the share is built, not the work the find's ASIC job index
refers to.  (cluster.h, line 395, declares this function with a fifth
parameter `extranonce2_hex`, "The extranonce2 as hex string from the ASIC
job", and the only caller passes that argument; the definition ignores it.) -/
def onShareFound (st : SlaveState) (nonce jobId version ntime : Nat) : SlaveState :=
  if !st.workValid then st
  else if slaveIsDuplicate st nonce jobId then st
  else
    let st1 := { st with
      recentShares := st.recentShares.set st.recentIdx (some (nonce, jobId))
      recentIdx := (st.recentIdx + 1) % SLAVE_RECENT_SHARES
      sharesFound := st.sharesFound + 1 }
    let share : Share := {
      jobId := jobId, nonce := nonce, slaveId := st.myId
      version := version, ntime := ntime
      extranonce2 := st.currentWork.extranonce2.take 8
      extranonce2Len := st.currentWork.extranonce2Len }
    if st1.shareQueue.length < 16 then
      { st1 with shareQueue := st1.shareQueue ++ [share] }
    else st1

/-- `strtoul(s, NULL, 16)` on a job-id string. -/
def parseHex (s : String) : Nat :=
  (s.data.takeWhile (fun c =>
      c.isDigit ∨ ('a' ≤ c ∧ c ≤ 'f') ∨ ('A' ≤ c ∧ c ≤ 'F'))).foldl
    (fun a c => 16 * a + Codec.hexDigitVal c) 0

/-- `cluster_slave_intercept_share`: look up the `bm_job` the find's internal
index refers to, derive the numeric job id from its `jobid` string, extract
that job's extranonce2 string (the source comment: "this is the CORRECT one
that was used when this specific job was submitted to the ASIC"), and call
`cluster_slave_on_share_found` — whose definition takes no extranonce2
parameter and uses `current_work` instead. -/
def interceptShare (st : SlaveState) (activeJobs : Nat → Option BmJob)
    (jobIdx nonce ntime version : Nat) : SlaveState :=
  match activeJobs jobIdx with
  | none => st
  | some job => onShareFound st nonce (parseHex job.jobid) version ntime

/-- A slave whose ASIC is still working on the job at index 1 (extranonce2
`02aabbcc`) while a newer work unit (extranonce2 `02ddeeff`) has overwritten
`current_work`. -/
def cexSlave : SlaveState :=
  { myId := 1
    workValid := true
    currentWork := { extranonce2 := [0x02, 0xdd, 0xee, 0xff], extranonce2Len := 4 }
    recentShares := List.replicate 16 none
    recentIdx := 0
    sharesFound := 0
    shareQueue := [] }

def cexJobs : Nat → Option BmJob :=
  fun i => if i = 1 then some { jobid := "0000a1b2", extranonce2 := "02aabbcc" } else none

/-- **C6 (code bug).** A find on ASIC job index 1 is reported with the
extranonce2 of `current_work`, not with the extranonce2 of the job the index
refers to: the share queued for the master carries `02ddeeff` (the current
work's) although the ASIC hashed with `02aabbcc`.  The definition of
`cluster_slave_on_share_found` in cluster_slave.c contradicts its own
prototype and documentation in cluster.h (five parameters, "The extranonce2
as hex string from the ASIC job") and the caller's comment ("Pass the
extranonce2 from the job so we use the correct one"): the declared
`extranonce2_hex` parameter is missing from the definition, which falls back
to `current_work`. -/
theorem share_extranonce2_from_current_work_bug :
    (interceptShare cexSlave cexJobs 1 2863311530 1700000000 536870912).shareQueue.map
        (fun sh => sh.extranonce2) = [[0x02, 0xdd, 0xee, 0xff]]
    ∧ Codec.hexToBytes ("02aabbcc".data) 8 = [0x02, 0xaa, 0xbb, 0xcc]
    ∧ ([0x02, 0xdd, 0xee, 0xff] : List Nat) ≠ [0x02, 0xaa, 0xbb, 0xcc] := by
  refine ⟨by decide, by decide, by decide⟩

end SlaveShare

-- ============================================================================
-- Safety watchdog: get_lower_freq_step / get_lower_voltage_step /
-- cluster_watchdog_task (cluster_autotune.c, lines 1173-1304)
-- ============================================================================

namespace Watchdog

/-- `FREQ_STEPS` (cluster_autotune.c, line 64). -/
def FREQ_STEPS : List Nat := [450, 500, 525, 550, 600, 625, 650, 700, 725, 750, 800]

/-- `VOLTAGE_STEPS` (cluster_autotune.c, line 68). -/
def VOLTAGE_STEPS : List Nat := [1100, 1150, 1200, 1225, 1250, 1275, 1300]

/-- `TEMP_TARGET_C` (65 °C). -/
def TEMP_TARGET_C : ℚ := 65

/-- `VIN_MIN_SAFE` (4.9 V; the C constant is the `float` literal `4.9f`,
modelled as the exact rational 49/10 — every comparison in the claims is
against values like 4.8 and 70 where the two agree). -/
def VIN_MIN_SAFE : ℚ := mkRat 49 10

/-- The shared shape of `get_lower_freq_step` / `get_lower_voltage_step`:
walk the table from the top down, return the first entry strictly below the
current value, else the table minimum (`STEPS[0]`). -/
def getLowerStep (steps : List Nat) (current : Nat) : Nat :=
  match steps.reverse.find? (fun s => s < current) with
  | some s => s
  | none => steps.headD 0

/-- `get_lower_freq_step`. -/
def getLowerFreqStep (current : Nat) : Nat := getLowerStep FREQ_STEPS current

/-- `get_lower_voltage_step`. -/
def getLowerVoltageStep (current : Nat) : Nat := getLowerStep VOLTAGE_STEPS current

/-- What one watchdog tick actuates and persists. -/
structure TickResult where
  applied : Bool
  newFreq : Nat
  newVoltage : Nat
  persistedVoltage : Option Nat
  persistedFreq : Option Nat
  freqActuated : Bool
deriving DecidableEq, Repr

/-- One pass of the loop body of `cluster_watchdog_task` (lines 1214-1262):
if `temp > TEMP_TARGET_C`, step the voltage down; if `vin < VIN_MIN_SAFE`,
step both frequency and voltage down; if an action is needed and something
changed, apply the voltage (`VCORE_set_voltage` + NVS persist), then apply
the frequency only if it changed (`ASIC_set_frequency` + NVS persist). -/
def watchdogTick (currentFreq currentVoltage : Nat) (temp vin : ℚ) : TickResult :=
  let needTemp := temp > TEMP_TARGET_C
  let needVin := vin < VIN_MIN_SAFE
  let v1 := if needTemp then getLowerVoltageStep currentVoltage else currentVoltage
  let newFreq := if needVin then getLowerFreqStep currentFreq else currentFreq
  let newVoltage := if needVin then getLowerVoltageStep currentVoltage else v1
  if (needTemp ∨ needVin) ∧ (newFreq ≠ currentFreq ∨ newVoltage ≠ currentVoltage) then
    { applied := true
      newFreq := newFreq
      newVoltage := newVoltage
      persistedVoltage := some newVoltage
      persistedFreq := if newFreq ≠ currentFreq then some newFreq else none
      freqActuated := newFreq ≠ currentFreq }
  else
    { applied := false
      newFreq := currentFreq
      newVoltage := currentVoltage
      persistedVoltage := none
      persistedFreq := none
      freqActuated := false }

theorem getLowerStep_mem (steps : List Nat) (current : Nat) (hne : steps ≠ []) :
    getLowerStep steps current ∈ steps := by
  unfold getLowerStep
  split
  · rename_i s hs
    exact List.mem_reverse.mp (List.mem_of_find?_eq_some hs)
  · cases steps with
    | nil => exact absurd rfl hne
    | cons a t => simp [List.headD]

/-- The no-action outcome of a tick. -/
def idleResult (f v : Nat) : TickResult :=
  { applied := false, newFreq := f, newVoltage := v
    persistedVoltage := none, persistedFreq := none, freqActuated := false }

/-- Every tick either does nothing or applies the stepped-down voltage (and,
when it actuates the frequency, the stepped-down frequency). -/
theorem tick_spec (f v : Nat) (temp vin : ℚ) :
    watchdogTick f v temp vin = idleResult f v
    ∨ ((watchdogTick f v temp vin).applied = true
       ∧ (watchdogTick f v temp vin).newVoltage = getLowerVoltageStep v
       ∧ ((watchdogTick f v temp vin).freqActuated = true →
          (watchdogTick f v temp vin).newFreq = getLowerFreqStep f)) := by
  unfold watchdogTick idleResult
  by_cases htemp : temp > TEMP_TARGET_C <;> by_cases hvin : vin < VIN_MIN_SAFE <;>
    simp only [htemp, hvin, if_true, if_false, ite_true, ite_false, true_or, or_true,
      false_or, or_false, true_and, false_and]
  all_goals
    split
    · right
      refine ⟨rfl, rfl, fun h => ?_⟩
      first
        | rfl
        | exact absurd (of_decide_eq_true h) (fun hne => hne rfl)
    · left
      rfl

/-- **C9 (amended).** One watchdog tick observing chip temperature above
65 °C (with the input voltage safe) lowers the core voltage to the next-lower
entry of the voltage step table and persists that value, leaving the
frequency alone; one tick observing input voltage below 4.9 V lowers both the
frequency and the core voltage by one step and persists those stepped-down
values.  The watchdog does **not** pin a persisted safe core voltage of
1100 mV — the 1100 mV (`VOLTAGE_SAFE_MV`) pinning lives in the Tuner's
`check_input_voltage_protection`, not in `cluster_watchdog_task`. -/
theorem watchdog_tick_protective (f v : Nat) (temp vin : ℚ) :
    (temp > TEMP_TARGET_C → ¬(vin < VIN_MIN_SAFE) → getLowerVoltageStep v ≠ v →
       watchdogTick f v temp vin =
         { applied := true, newFreq := f, newVoltage := getLowerVoltageStep v
           persistedVoltage := some (getLowerVoltageStep v)
           persistedFreq := none, freqActuated := false })
    ∧ (vin < VIN_MIN_SAFE → getLowerVoltageStep v ≠ v →
       (watchdogTick f v temp vin).applied = true
       ∧ (watchdogTick f v temp vin).newFreq = getLowerFreqStep f
       ∧ (watchdogTick f v temp vin).newVoltage = getLowerVoltageStep v
       ∧ (watchdogTick f v temp vin).persistedVoltage = some (getLowerVoltageStep v)) := by
  constructor
  · intro htemp hvin hchange
    unfold watchdogTick
    simp only [htemp, hvin, if_true, if_false, ite_true, ite_false, true_or, true_and]
    rw [if_pos (Or.inr hchange)]
    simp
  · intro hvin hchange
    unfold watchdogTick
    by_cases htemp : temp > TEMP_TARGET_C <;>
      simp only [htemp, hvin, if_true, if_false, ite_true, ite_false, true_or, or_true,
        true_and] <;>
      rw [if_pos (Or.inr hchange)] <;>
      exact ⟨rfl, rfl, rfl, rfl⟩

/-- Witness: a tick at 800 MHz / 1300 mV with `temp = 60` and `vin = 4.8`
steps down to 750 MHz / 1275 mV and persists 1275 mV. -/
theorem watchdog_tick_protective_witness :
    (watchdogTick 800 1300 60 (mkRat 48 10)).applied = true
    ∧ (watchdogTick 800 1300 60 (mkRat 48 10)).newFreq = getLowerFreqStep 800
    ∧ (watchdogTick 800 1300 60 (mkRat 48 10)).newVoltage = getLowerVoltageStep 1300
    ∧ (watchdogTick 800 1300 60 (mkRat 48 10)).persistedVoltage = some (getLowerVoltageStep 1300) :=
  (watchdog_tick_protective 800 1300 60 (mkRat 48 10)).2 (by decide) (by decide)

/-- **C9 counterexample.** From 800 MHz / 1300 mV with `Vin = 4.8 V` one tick
persists 1275 mV — the stepped-down value — and not the claimed pinned safe
voltage of 1100 mV. -/
theorem watchdog_no_1100_pin_counterexample :
    (watchdogTick 800 1300 60 (mkRat 48 10)).persistedVoltage = some 1275
    ∧ some (1275 : Nat) ≠ some 1100 := by
  refine ⟨by decide, by decide⟩

/-- **C10 (confirmed).** The watchdog's protective actuation never drives the
operating point below the bottom of the step tables: whenever a tick applies
settings, the applied core voltage is an entry of `VOLTAGE_STEPS` (hence
≥ 1100 mV), and whenever it actuates the frequency, the value is an entry of
`FREQ_STEPS` (hence ≥ 450 MHz); stepping down from the minimum step is a
no-op (returns the minimum again). -/
theorem watchdog_floor (f v : Nat) (temp vin : ℚ) :
    ((watchdogTick f v temp vin).applied = true →
       (watchdogTick f v temp vin).newVoltage ∈ VOLTAGE_STEPS
       ∧ 1100 ≤ (watchdogTick f v temp vin).newVoltage)
    ∧ ((watchdogTick f v temp vin).freqActuated = true →
       (watchdogTick f v temp vin).newFreq ∈ FREQ_STEPS
       ∧ 450 ≤ (watchdogTick f v temp vin).newFreq)
    ∧ getLowerFreqStep 450 = 450
    ∧ getLowerVoltageStep 1100 = 1100 := by
  have hvmem : ∀ c, getLowerVoltageStep c ∈ VOLTAGE_STEPS :=
    fun c => getLowerStep_mem VOLTAGE_STEPS c (by decide)
  have hfmem : ∀ c, getLowerFreqStep c ∈ FREQ_STEPS :=
    fun c => getLowerStep_mem FREQ_STEPS c (by decide)
  have hvlow : ∀ x ∈ VOLTAGE_STEPS, 1100 ≤ x := by decide
  have hflow : ∀ x ∈ FREQ_STEPS, 450 ≤ x := by decide
  refine ⟨?_, ?_, by decide, by decide⟩
  · intro happ
    rcases tick_spec f v temp vin with hidle | ⟨_, hvolt, _⟩
    · rw [hidle] at happ
      exact absurd happ (by simp [idleResult])
    · rw [hvolt]
      exact ⟨hvmem v, hvlow _ (hvmem v)⟩
  · intro hact
    rcases tick_spec f v temp vin with hidle | ⟨_, _, hfreq⟩
    · rw [hidle] at hact
      exact absurd hact (by simp [idleResult])
    · rw [hfreq hact]
      exact ⟨hfmem f, hflow _ (hfmem f)⟩

/-- Witness for `watchdog_floor`: the tick from 450 MHz / 1150 mV at
`Vin = 4.8` applies values on the tables. -/
theorem watchdog_floor_witness :
    (watchdogTick 450 1150 60 (mkRat 48 10)).newVoltage ∈ VOLTAGE_STEPS
    ∧ 1100 ≤ (watchdogTick 450 1150 60 (mkRat 48 10)).newVoltage :=
  (watchdog_floor 450 1150 60 (mkRat 48 10)).1 (by decide)

end Watchdog

-- ============================================================================
-- Pacer calibration: run_calibration_step / start_calibration
-- (auto_timing.c, lines 89-183)
-- ============================================================================

namespace Pacer

/-- `CALIBRATION_INTERVALS` (auto_timing.c, line 23). -/
def CALIBRATION_INTERVALS : List Nat := [500, 550, 600, 650, 700, 750, 800]

/-- `AUTO_TIMING_MIN_SHARES_FOR_TEST`. -/
def MIN_SHARES_FOR_TEST : Nat := 20

/-- `AUTO_TIMING_DEFAULT_INTERVAL_MS` — `start_calibration` initializes
`best_interval` to it (and `best_rejection_rate` to `100.0f`). -/
def DEFAULT_INTERVAL_MS : Nat := 700

/-- `calculate_rejection_rate`: `rejected / (accepted+rejected) * 100`, and
`0` when there are no samples (`mkRat _ 0 = 0`).  The C value is a `float`;
the claims' corner cases (rate exactly `100.0` when `accepted = 0`, the
initial best of `100.0f`) are exact in both representations. -/
def rejectionRate (acc rej : Nat) : ℚ := mkRat (100 * rej) (acc + rej)

/-- A completed calibration step: `(interval, (accepted, rejected))`. -/
def stepRate (e : Nat × Nat × Nat) : ℚ := rejectionRate e.2.1 e.2.2

def qualStep (e : Nat × Nat × Nat) : Prop := MIN_SHARES_FOR_TEST ≤ e.2.1 + e.2.2

instance (e : Nat × Nat × Nat) : Decidable (qualStep e) := by
  unfold qualStep
  infer_instance

/-- The best-tracking block of `run_calibration_step` (lines 114-123): update
`(best_interval, best_rejection_rate)` when the step has enough samples and
its rate is strictly below the current best (the `best_rejection_rate < 0`
disjunct is in the source; it can never fire because the best starts at
`100.0f` and only decreases). -/
def calibStep (best : Nat × ℚ) (e : Nat × Nat × Nat) : Nat × ℚ :=
  if qualStep e ∧ (stepRate e < best.2 ∨ best.2 < 0) then (e.1, stepRate e) else best

/-- One full sweep over the seven steps, fed the per-step
`(accepted, rejected)` counts, starting from `start_calibration`'s
`(best_interval, best_rejection_rate) = (700, 100.0)`. -/
def runCalibration (data : List (Nat × Nat)) : Nat × ℚ :=
  (CALIBRATION_INTERVALS.zip data).foldl calibStep (DEFAULT_INTERVAL_MS, 100)

/-- `set_interval`'s clamp to `[min_interval_ms, max_interval_ms]`. -/
def setIntervalClamp (minI maxI x : Nat) : Nat :=
  if x < minI then minI else if maxI < x then maxI else x

inductive PacerMode where
  | disabled
  | calibrating
  | monitoring
  | locked
deriving DecidableEq, Repr

/-- What the sweep-completion branch of `run_calibration_step` (lines
128-146) does: apply the best interval (through `set_interval`'s clamp), set
`optimal_interval_ms`, persist to NVS, broadcast `CLTIM`, enter Monitoring. -/
structure SweepOutcome where
  appliedInterval : Nat
  optimalInterval : Nat
  persistedInterval : Nat
  broadcastInterval : Nat
  mode : PacerMode
deriving DecidableEq, Repr

def completeSweep (minI maxI : Nat) (data : List (Nat × Nat)) : SweepOutcome :=
  let best := (runCalibration data).1
  { appliedInterval := setIntervalClamp minI maxI best
    optimalInterval := best
    persistedInterval := best
    broadcastInterval := best
    mode := .monitoring }

theorem stepRate_nonneg (e : Nat × Nat × Nat) : 0 ≤ stepRate e := by
  unfold stepRate rejectionRate
  rw [Rat.mkRat_eq_div]
  apply div_nonneg
  · exact Int.cast_nonneg.mpr (by positivity)
  · positivity

/-- Characterization of the best-tracking fold: starting from a nonnegative
best rate, the result is either the untouched start (no qualifying step beat
it) or the first qualifying step attaining the minimum rate among qualifying
steps, strictly below the start. -/
theorem calibFold_spec :
    ∀ (l : List (Nat × Nat × Nat)) (iv0 : Nat) (r0 : ℚ), 0 ≤ r0 →
      (l.foldl calibStep (iv0, r0) = (iv0, r0)
        ∧ ∀ e ∈ l, qualStep e → r0 ≤ stepRate e)
      ∨ (∃ k, ∃ hk : k < l.length,
          qualStep (l.get ⟨k, hk⟩)
          ∧ l.foldl calibStep (iv0, r0) = ((l.get ⟨k, hk⟩).1, stepRate (l.get ⟨k, hk⟩))
          ∧ stepRate (l.get ⟨k, hk⟩) < r0
          ∧ (∀ e ∈ l, qualStep e → stepRate (l.get ⟨k, hk⟩) ≤ stepRate e)
          ∧ (∀ j, ∀ hj : j < l.length, j < k → qualStep (l.get ⟨j, hj⟩) →
              stepRate (l.get ⟨k, hk⟩) < stepRate (l.get ⟨j, hj⟩))) := by
  intro l
  induction l with
  | nil =>
    intro iv0 r0 _
    left
    exact ⟨rfl, by simp⟩
  | cons e rest ih =>
    intro iv0 r0 h0
    have hstep : ∀ b : Nat × ℚ, 0 ≤ b.2 →
        calibStep b e = if qualStep e ∧ stepRate e < b.2 then (e.1, stepRate e) else b := by
      intro b hb
      unfold calibStep
      by_cases hq : qualStep e ∧ stepRate e < b.2
      · rw [if_pos ⟨hq.1, Or.inl hq.2⟩, if_pos hq]
      · rw [if_neg ?_, if_neg hq]
        rintro ⟨hqe, hlt | hneg⟩
        · exact hq ⟨hqe, hlt⟩
        · exact absurd hb (by simpa using hneg)
    by_cases hcond : qualStep e ∧ stepRate e < r0
    · have heq : (e :: rest).foldl calibStep (iv0, r0) =
          rest.foldl calibStep (e.1, stepRate e) := by
        rw [List.foldl_cons, hstep (iv0, r0) h0, if_pos hcond]
      rcases ih e.1 (stepRate e) (stepRate_nonneg e) with ⟨hfold, hall⟩ | hbest
      · right
        refine ⟨0, by simp, hcond.1, ?_, hcond.2, ?_, ?_⟩
        · rw [heq, hfold]
          rfl
        · intro x hx hqx
          rcases List.mem_cons.mp hx with rfl | hxr
          · exact le_refl _
          · exact hall x hxr hqx
        · intro j hj hj0 hqj
          omega
      · obtain ⟨k, hk, hq, hfold, hlt, hmin, hfirst⟩ := hbest
        right
        refine ⟨k + 1, by simpa using Nat.succ_lt_succ hk, hq, ?_, lt_trans hlt hcond.2,
          ?_, ?_⟩
        · rw [heq, hfold]
          rfl
        · intro x hx hqx
          rcases List.mem_cons.mp hx with rfl | hxr
          · exact le_of_lt hlt
          · exact hmin x hxr hqx
        · intro j hj hjk hqj
          cases j with
          | zero => exact hlt
          | succ j' =>
            exact hfirst j' (by simpa using hj) (by omega) hqj
    · have heq : (e :: rest).foldl calibStep (iv0, r0) =
          rest.foldl calibStep (iv0, r0) := by
        rw [List.foldl_cons, hstep (iv0, r0) h0, if_neg hcond]
      have hhead : qualStep e → r0 ≤ stepRate e := by
        intro hqe
        by_contra hnot
        exact hcond ⟨hqe, lt_of_not_le hnot⟩
      rcases ih iv0 r0 h0 with ⟨hfold, hall⟩ | hbest
      · left
        refine ⟨by rw [heq, hfold], ?_⟩
        intro x hx hqx
        rcases List.mem_cons.mp hx with rfl | hxr
        · exact hhead hqx
        · exact hall x hxr hqx
      · obtain ⟨k, hk, hq, hfold, hlt, hmin, hfirst⟩ := hbest
        right
        refine ⟨k + 1, by simpa using Nat.succ_lt_succ hk, hq, ?_, hlt, ?_, ?_⟩
        · rw [heq, hfold]
          rfl
        · intro x hx hqx
          rcases List.mem_cons.mp hx with rfl | hxr
          · exact le_of_lt (lt_of_lt_of_le hlt (hhead hqx))
          · exact hmin x hxr hqx
        · intro j hj hjk hqj
          cases j with
          | zero => exact lt_of_lt_of_le hlt (hhead hqj)
          | succ j' =>
            exact hfirst j' (by simpa using hj) (by omega) hqj

/-- The selection rule exactly as the claim states it: the interval of the
step with the lowest measured reject rate among steps whose sample count is
at least `MIN_SHARES_FOR_TEST`, ties broken in favor of the first-seen step —
with no further proviso.  (Definition follows the claim's words, for
comparison with `runCalibration`.) -/
def claimSelectedInterval (data : List (Nat × Nat)) : Option Nat :=
  let qual := (CALIBRATION_INTERVALS.zip data).filter (fun e => decide (qualStep e))
  match (qual.map stepRate).min? with
  | none => none
  | some m => (qual.find? (fun e => decide (stepRate e = m))).map Prod.fst

/-- **C7 (amended).** After one full calibration sweep, the interval applied,
persisted, and broadcast to Workers (and the state becomes Monitoring) is:
the interval of the first-seen step attaining the minimum measured reject
rate among steps with at least 20 samples **and reject rate strictly below
100 %**; when no such step exists (in particular when every qualifying step
rejected everything, or no step qualifies), the default 700 ms is selected
instead.  This holds for every assignment of per-step accepted/rejected
counts.  (The claim as stated fails when the minimum qualifying rate is
exactly 100 %, because the tracked best starts at 100.0 and is only replaced
by a strictly smaller rate: see the counterexample.) -/
theorem calibration_sweep_correct (data : List (Nat × Nat)) :
    ((runCalibration data = (DEFAULT_INTERVAL_MS, 100)
        ∧ ∀ e ∈ CALIBRATION_INTERVALS.zip data, qualStep e → (100 : ℚ) ≤ stepRate e)
      ∨ (∃ k, ∃ hk : k < (CALIBRATION_INTERVALS.zip data).length,
          qualStep ((CALIBRATION_INTERVALS.zip data).get ⟨k, hk⟩)
          ∧ runCalibration data =
              (((CALIBRATION_INTERVALS.zip data).get ⟨k, hk⟩).1,
               stepRate ((CALIBRATION_INTERVALS.zip data).get ⟨k, hk⟩))
          ∧ stepRate ((CALIBRATION_INTERVALS.zip data).get ⟨k, hk⟩) < 100
          ∧ (∀ e ∈ CALIBRATION_INTERVALS.zip data, qualStep e →
              stepRate ((CALIBRATION_INTERVALS.zip data).get ⟨k, hk⟩) ≤ stepRate e)
          ∧ (∀ j, ∀ hj : j < (CALIBRATION_INTERVALS.zip data).length, j < k →
              qualStep ((CALIBRATION_INTERVALS.zip data).get ⟨j, hj⟩) →
              stepRate ((CALIBRATION_INTERVALS.zip data).get ⟨k, hk⟩) <
                stepRate ((CALIBRATION_INTERVALS.zip data).get ⟨j, hj⟩))))
    ∧ completeSweep 500 800 data =
        { appliedInterval := (runCalibration data).1
          optimalInterval := (runCalibration data).1
          persistedInterval := (runCalibration data).1
          broadcastInterval := (runCalibration data).1
          mode := .monitoring } := by
  have hchar := calibFold_spec (CALIBRATION_INTERVALS.zip data)
    DEFAULT_INTERVAL_MS 100 (by norm_num)
  constructor
  · exact hchar
  · have hbounds : 500 ≤ (runCalibration data).1 ∧ (runCalibration data).1 ≤ 800 := by
      have hiv : ∀ i, ∀ h : i < CALIBRATION_INTERVALS.length,
          500 ≤ CALIBRATION_INTERVALS.get ⟨i, h⟩
          ∧ CALIBRATION_INTERVALS.get ⟨i, h⟩ ≤ 800 := by decide
      rcases hchar with ⟨hfold, _⟩ | ⟨k, hk, _, hfold, _⟩
      · rw [show runCalibration data =
            (CALIBRATION_INTERVALS.zip data).foldl calibStep (DEFAULT_INTERVAL_MS, 100)
            from rfl, hfold]
        norm_num [DEFAULT_INTERVAL_MS]
      · rw [show runCalibration data =
            (CALIBRATION_INTERVALS.zip data).foldl calibStep (DEFAULT_INTERVAL_MS, 100)
            from rfl, hfold]
        have hk' : k < CALIBRATION_INTERVALS.length := by
          have : (CALIBRATION_INTERVALS.zip data).length =
              min CALIBRATION_INTERVALS.length data.length := List.length_zip _ _
          omega
        have hz : ((CALIBRATION_INTERVALS.zip data).get ⟨k, hk⟩).1 =
            CALIBRATION_INTERVALS.get ⟨k, hk'⟩ := by
          rw [List.get_eq_getElem, List.get_eq_getElem, List.getElem_zip]
        rw [hz]
        exact hiv k hk'
    simp only [completeSweep, setIntervalClamp]
    rw [if_neg (by omega), if_neg (by omega)]

/-- The feed where the only qualifying step (the first, 500 ms) rejected all
20 of its shares: measured reject rate exactly 100 %. -/
def cexData : List (Nat × Nat) := [(0, 20), (0, 0), (0, 0), (0, 0), (0, 0), (0, 0), (0, 0)]

/-- **C7 counterexample.** With the feed `cexData`, the step with the lowest
measured reject rate among steps with ≥ 20 samples is the 500 ms step (rate
100 %), but the sweep applies the default 700 ms: the initial best rate is
100.0 and the update requires a strictly smaller rate, so a qualifying step
at exactly 100 % is never selected. -/
theorem calibration_counterexample :
    claimSelectedInterval cexData = some 500
    ∧ (completeSweep 500 800 cexData).appliedInterval = 700
    ∧ (700 : Nat) ≠ 500 := by
  refine ⟨by decide, by decide, by decide⟩

end Pacer


end ClusterAxe
